import Mathlib

/-!
Verification of the callscore call ingestion, deduplication and
classification-state reconciliation pipeline.

This file shallowly embeds the pipeline operations of the repository:

* `src/app/models.py` — the `Account`, `TrackingLine` and `Call` rows and
  the table-level unique constraints;
* `src/app/webhooks/routes.py` — `_check_usage_limit`, `_increment_usage`,
  `twilio_ci_callback`, `callrail_callback`;
* `src/app/poll_service.py` — `poll_account`, `poll_short_answered_calls`,
  `retry_failed_submissions`;
* `src/scripts/poll_twilio.py` — `poll_account` (the cron variant, which
  keeps records whose destination has no tracking-line match);
* `src/scripts/poll_callrail.py` — `retry_failed_callrail`.

The database session is modelled as an explicit `DB` value threaded through
each operation; external HTTP services (Twilio call details, CI submission,
transcription, GPT classification) are modelled as function-valued oracles
returning `Except Unit` results, where `Except.error` stands for a raised
exception.  Machine timestamps are integers (seconds); `datetime.now` is an
explicit `now` argument.  Python truthiness of optional strings is
`truthy`.  Statuses, outcomes and classification verdicts are the exact
strings the source uses.
-/

/-- Result dictionary shared by `classify_transcript`
(src/app/ai_classifier.py) and `fetch_operator_results`
(src/app/twilio_service.py): both return the same eight keys, each
possibly absent (`None`) except `urgent`, which defaults to `False`. -/
structure ClassificationResult where
  classification : Option String
  confidence : Option Int
  summary : Option String
  service_type : Option String
  urgent : Bool
  customer_name : Option String
  customer_address : Option String
  booking_time : Option String
deriving DecidableEq, Repr

/-- A row of the `accounts` table (src/app/models.py), restricted to the
columns the pipeline reads.  Nullable columns are `Option`. -/
structure Account where
  id : Nat
  twilio_account_sid : Option String
  twilio_auth_token_encrypted : Option String
  twilio_service_sid : Option String
  callrail_api_key_encrypted : Option String
  callrail_account_id : Option String
  plan_calls_limit : Option Int
  plan_calls_used : Option Int
deriving DecidableEq, Repr

/-- A row of the `tracking_lines` table (src/app/models.py). -/
structure TrackingLine where
  id : Nat
  account_id : Nat
  twilio_phone_number : Option String
  callrail_tracking_number : Option String
  active : Bool
deriving DecidableEq, Repr

/-- A row of the `calls` table (src/app/models.py).  Field defaults mirror
the column defaults (`source="twilio"`, `call_outcome="answered"`,
`status="pending"`, `retry_count=0`). -/
structure Call where
  id : Nat
  account_id : Nat
  tracking_line_id : Option Nat := none
  twilio_call_sid : Option String := none
  twilio_recording_sid : Option String := none
  callrail_call_id : Option String := none
  caller_number : String := ""
  call_duration : Int := 0
  call_date : Option Int := none
  recording_url : Option String := none
  source : String := "twilio"
  call_outcome : String := "answered"
  status : String := "pending"
  retry_count : Nat := 0
  transcript_sid : Option String := none
  classification : Option String := none
  confidence : Option Int := none
  summary : Option String := none
  service_type : Option String := none
  urgent : Option Bool := none
  full_transcript : Option String := none
  analysed_at : Option Int := none
  customer_name : Option String := none
  customer_address : Option String := none
  booking_time : Option String := none
deriving DecidableEq, Repr

/-- The multi-column unique constraints declared on the `calls` table
(`__table_args__` in src/app/models.py, lines 108-114), by constraint
name.  No other column of `calls` carries a uniqueness constraint. -/
def call_unique_constraints : List (String × List String) :=
  [("uq_call_account_call_sid", ["account_id", "twilio_call_sid"]),
   ("uq_call_account_recording_sid", ["account_id", "twilio_recording_sid"]),
   ("uq_call_account_callrail_id", ["account_id", "callrail_call_id"])]

/-- The database session: the three tables the pipeline touches, plus the
next primary key handed out on insert. -/
structure DB where
  calls : List Call
  accounts : List Account
  tracking_lines : List TrackingLine
  next_id : Nat
deriving DecidableEq, Repr

/-- A `(status code, body status string)` pair standing for the
`jsonify(...), code` values the Flask handlers return. -/
structure HttpResponse where
  code : Nat
  body : String
deriving DecidableEq, Repr

/-- Python truthiness of an optional string: `None` and `""` are falsy. -/
def truthy : Option String → Bool
  | none => false
  | some s => s != ""

/-- `_check_usage_limit` (src/app/webhooks/routes.py, lines 15-22):
true when both counters are set and used has reached the limit. -/
def check_usage_limit (account : Account) : Bool :=
  match account.plan_calls_used, account.plan_calls_limit with
  | some u, some l => decide (u ≥ l)
  | _, _ => false

/-- `_increment_usage` (src/app/webhooks/routes.py, lines 25-29):
a `None` counter is treated as 0, then incremented. -/
def increment_usage (account : Account) : Account :=
  { account with plan_calls_used := some (account.plan_calls_used.getD 0 + 1) }

/-- Persist an updated account row (the ORM mutates the attached object;
committing writes it back keyed by primary key). -/
def setAccount (db : DB) (a : Account) : DB :=
  { db with accounts := db.accounts.map (fun x => if x.id == a.id then a else x) }

/-- Apply `f` to the first element satisfying `p`, leaving the rest
unchanged: the effect of mutating the object returned by
`Query.first()` and committing. -/
def updateFirstCall (p : Call → Bool) (f : Call → Call) : List Call → List Call
  | [] => []
  | c :: cs => if p c then f c :: cs else c :: updateFirstCall p f cs

/-- The shared eight-assignment block copying a `ClassificationResult`
into a call row (appears verbatim in `twilio_ci_callback`,
`callrail_callback`, `backfill_callrail_calls`,
`process_pending_recordings` and `retry_failed_callrail`). -/
def set_result_fields (c : Call) (r : ClassificationResult) : Call :=
  { c with
    classification := r.classification,
    confidence := r.confidence,
    summary := r.summary,
    service_type := r.service_type,
    urgent := some r.urgent,
    customer_name := r.customer_name,
    customer_address := r.customer_address,
    booking_time := r.booking_time }

/-- The `start_time` / `date_created` parsing pattern: absent or empty
stays `None`; a present string that fails to parse falls back to `now`.
`parse` is the oracle for `datetime.fromisoformat` / `strptime`. -/
def parse_date (parse : String → Option Int) (now : Int) :
    Option String → Option Int
  | none => none
  | some s => if s == "" then none else some ((parse s).getD now)

/-- The field writes of lines 69-81 of src/app/webhooks/routes.py:
copy the operator results into the call — when there are any — and
downgrade the outcome of a `VOICEMAIL` verdict. -/
def webhooks.ci_apply_results (call : Call)
    (opRes : Option ClassificationResult) : Call :=
  match opRes with
  | none => call
  | some r =>
    let c := set_result_fields call r
    if c.classification == some "VOICEMAIL" then
      { c with call_outcome := "voicemail" }
    else c

/-- The call row as committed by the success path of
`twilio_ci_callback` (lines 69-95): operator results applied, transcript
text stored when non-empty, status `completed`, `analysed_at` set. -/
def webhooks.ci_success_call (call : Call)
    (opRes : Option ClassificationResult) (text : String) (now : Int) : Call :=
  let call1 := webhooks.ci_apply_results call opRes
  let call2 :=
    if text != "" then { call1 with full_transcript := some text } else call1
  { call2 with status := "completed", analysed_at := some now }

/-- `twilio_ci_callback` (src/app/webhooks/routes.py, lines 32-107).
`fetchOp` is the outcome of `fetch_operator_results` (which may raise, or
return `None` when the transcript has no operator results); `fetchText`
the outcome of `fetch_transcript_text`.  Returns the committed session
and the HTTP response. -/
def webhooks.twilio_ci_callback (db : DB) (transcript_sid : Option String)
    (fetchOp : Except Unit (Option ClassificationResult))
    (fetchText : Except Unit String) (now : Int) : DB × HttpResponse :=
  if !truthy transcript_sid then
    (db, ⟨400, "No TranscriptSid provided"⟩)
  else
    let tsid := transcript_sid.getD ""
    let byTsid := fun (c : Call) => c.transcript_sid == some tsid
    match db.calls.find? byTsid with
    | none => (db, ⟨202, "accepted, will retry"⟩)
    | some call =>
      match db.accounts.find? (fun a => a.id == call.account_id) with
      | none => (db, ⟨400, "Account not configured"⟩)
      | some account =>
        if !truthy account.twilio_account_sid then
          (db, ⟨400, "Account not configured"⟩)
        else if check_usage_limit account then
          let setLimit := fun (c : Call) => { c with status := "limit_reached" }
          ({ db with calls := updateFirstCall byTsid setLimit db.calls },
           ⟨200, "limit_reached"⟩)
        else
          match fetchOp with
          | .error _ =>
            let setFailed := fun (c : Call) => { c with status := "failed" }
            ({ db with calls := updateFirstCall byTsid setFailed db.calls },
             ⟨500, "error"⟩)
          | .ok opRes =>
            match fetchText with
            | .error _ =>
              let call1 := webhooks.ci_apply_results call opRes
              let put := fun (_ : Call) => { call1 with status := "failed" }
              ({ db with calls := updateFirstCall byTsid put db.calls },
               ⟨500, "error"⟩)
            | .ok text =>
              let call3 := webhooks.ci_success_call call opRes text now
              let put := fun (_ : Call) => call3
              let db1 := { db with calls := updateFirstCall byTsid put db.calls }
              (setAccount db1 (increment_usage account), ⟨200, "ok"⟩)

/-- The JSON payload of a CallRail post-call webhook, after the field
extraction at the top of `callrail_callback` (`int(... or 0)` already
applied to `duration`). -/
structure CallrailPayload where
  id : Option String
  answered : Bool
  duration : Int
  customer_phone_number : String
  tracking_phone_number : String
  recording : Option String
  transcription : Option String
  start_time : Option String
deriving DecidableEq, Repr

/-- The missed-call row built at lines 174-185 of
src/app/webhooks/routes.py when a CallRail call was not answered or has
no recording. -/
def webhooks.callrail_missed_call (db : DB) (p : CallrailPayload)
    (account : Account) (tracking_line : TrackingLine)
    (call_date : Option Int) : Call :=
  { id := db.next_id,
    account_id := account.id,
    tracking_line_id := some tracking_line.id,
    callrail_call_id := some (p.id.getD ""),
    caller_number := p.customer_phone_number,
    call_duration := p.duration,
    call_date := call_date,
    recording_url := p.recording,
    source := "callrail",
    call_outcome := "missed",
    status := "completed" }

/-- The answered-call row built at lines 193-233 of
src/app/webhooks/routes.py: created as `processing`, then — when the
payload embeds a transcription — classified inline, ending `completed`
on success (with a `VOICEMAIL` downgrade of the outcome) or `failed`
when `classify_transcript` raises. -/
def webhooks.callrail_answered_call (db : DB) (p : CallrailPayload)
    (account : Account) (tracking_line : TrackingLine)
    (call_date : Option Int)
    (classify : String → Except Unit ClassificationResult) (now : Int) : Call :=
  let base : Call :=
    { id := db.next_id,
      account_id := account.id,
      tracking_line_id := some tracking_line.id,
      callrail_call_id := some (p.id.getD ""),
      caller_number := p.customer_phone_number,
      call_duration := p.duration,
      call_date := call_date,
      recording_url := p.recording,
      source := "callrail",
      call_outcome := "answered",
      status := "processing" }
  if truthy p.transcription then
    let t := p.transcription.getD ""
    match classify t with
    | .ok r =>
      let c := set_result_fields base r
      let c := { c with
        full_transcript := some t,
        analysed_at := some now,
        status := "completed" }
      if c.classification == some "VOICEMAIL" then
        { c with call_outcome := "voicemail" }
      else c
    | .error _ => { base with status := "failed" }
  else base

/-- `callrail_callback` (src/app/webhooks/routes.py, lines 110-237).
`classify` is the `classify_transcript` oracle, `isoParse` the
`datetime.fromisoformat` oracle.  Note the source looks the tracking
line up globally (no account filter) and checks the usage limit before
deduplication and before storing anything. -/
def webhooks.callrail_callback (db : DB) (p : CallrailPayload)
    (classify : String → Except Unit ClassificationResult)
    (isoParse : String → Option Int) (now : Int) : DB × HttpResponse :=
  if !truthy p.id then
    (db, ⟨400, "No call id provided"⟩)
  else
    let call_id := p.id.getD ""
    match db.tracking_lines.find?
        (fun tl => tl.callrail_tracking_number == some p.tracking_phone_number
          && tl.active) with
    | none => (db, ⟨200, "ignored, unknown tracking number"⟩)
    | some tracking_line =>
      match db.accounts.find? (fun a => a.id == tracking_line.account_id) with
      | none => (db, ⟨400, "Account not found"⟩)
      | some account =>
        if check_usage_limit account then
          (db, ⟨200, "limit_reached"⟩)
        else if (db.calls.find? (fun c => c.account_id == account.id
            && c.callrail_call_id == some call_id)).isSome then
          (db, ⟨200, "duplicate"⟩)
        else if p.duration < 3 then
          (db, ⟨200, "skipped, too short"⟩)
        else
          let call_date := parse_date isoParse now p.start_time
          if !p.answered || !truthy p.recording then
            let call := webhooks.callrail_missed_call db p account tracking_line call_date
            (setAccount
              { db with calls := db.calls ++ [call], next_id := db.next_id + 1 }
              (increment_usage account),
             ⟨200, "ok"⟩)
          else
            let call := webhooks.callrail_answered_call db p account tracking_line
              call_date classify now
            (setAccount
              { db with calls := db.calls ++ [call], next_id := db.next_id + 1 }
              (increment_usage account),
             ⟨200, "ok"⟩)

/-- A recording dict returned by `fetch_recordings`
(src/app/twilio_service.py): the fields `poll_account` reads. -/
structure Recording where
  sid : Option String
  call_sid : Option String
  duration : Int
  date_created : Option String
deriving DecidableEq, Repr

/-- The call-detail dict returned by `get_call_details`: the `to` and
`from` numbers (both are Lean keywords, hence the `_number` suffixes). -/
structure CallDetails where
  to_number : String
  from_number : String
deriving DecidableEq, Repr

/-- A call dict returned by `fetch_calls`: the fields the missed-call
and short-answered-call sweeps read. -/
structure TwilioCallRecord where
  sid : Option String
  to_number : String
  from_number : String
  duration : Int
  date_created : Option String
deriving DecidableEq, Repr

/-- The external services a Twilio poll pass talks to:
`get_call_details` and `submit_recording_to_ci` as oracles (an
`Except.error` is a raised request exception), the `strptime` oracle and
the wall clock. -/
structure PollEnv where
  get_call_details : Option String → Except Unit CallDetails
  submit_recording_to_ci : String → Except Unit String
  strptime : String → Option Int
  now : Int

/-- `MIN_RECORDING_SECONDS` (src/app/poll_service.py, line 16 and
src/scripts/poll_twilio.py, line 35 and src/scripts/poll_callrail.py,
line 35): all three modules use 3. -/
def MIN_RECORDING_SECONDS : Int := 3

/-- The recording URL built in `poll_account`
(`https://api.twilio.com/2010-04-01/Accounts/{sid}/Recordings/{rsid}`). -/
def twilio_recording_url (account : Account) (recording_sid : Option String) : String :=
  "https://api.twilio.com/2010-04-01/Accounts/"
    ++ account.twilio_account_sid.getD "" ++ "/Recordings/"
    ++ recording_sid.getD ""

/-- The per-record body of `poll_account` in src/app/poll_service.py
(lines 40-131): returns the new call row to insert, or `none` when the
record is skipped.  The four `continue` sites, in source order: already
in the database (lines 44-48), too short (lines 54-55), call-detail
fetch raised (lines 58-66), no matching active tracking line — the
in-app service DROPS such records (lines 72-76).  On creation the
submission outcome decides `transcript_sid` versus `status="failed"`
(lines 112-129). -/
def poll_service.record_new_call (account : Account) (env : PollEnv)
    (db : DB) (rec : Recording) : Option Call :=
  if (db.calls.find? (fun c => c.account_id == account.id
      && c.twilio_recording_sid == rec.sid)).isSome then
    none
  else if rec.duration < MIN_RECORDING_SECONDS then
    none
  else
    match env.get_call_details rec.call_sid with
    | .error _ => none
    | .ok details =>
      match db.tracking_lines.find? (fun tl => tl.account_id == account.id
          && tl.twilio_phone_number == some details.to_number && tl.active) with
      | none => none
      | some tracking_line =>
        let recording_url := twilio_recording_url account rec.sid
        let call_date := parse_date env.strptime env.now rec.date_created
        let call : Call :=
          { id := db.next_id,
            account_id := account.id,
            tracking_line_id := some tracking_line.id,
            twilio_call_sid := rec.call_sid,
            twilio_recording_sid := rec.sid,
            caller_number := details.from_number,
            call_duration := rec.duration,
            call_date := call_date,
            recording_url := some recording_url,
            source := "twilio",
            status := "processing",
            call_outcome := "answered" }
        match env.submit_recording_to_ci recording_url with
        | .ok tsid => some { call with transcript_sid := some tsid }
        | .error _ => some { call with status := "failed" }

/-- One iteration of the `for rec in recordings` loop of
src/app/poll_service.py `poll_account`: a skipped record leaves the
session and the count untouched; otherwise the new row is added and the
count incremented. -/
def poll_service.poll_account_step (account : Account) (env : PollEnv)
    (acc : DB × Nat) (rec : Recording) : DB × Nat :=
  match poll_service.record_new_call account env acc.1 rec with
  | none => acc
  | some call =>
    ({ acc.1 with calls := acc.1.calls ++ [call], next_id := acc.1.next_id + 1 },
     acc.2 + 1)

/-- `poll_account` (src/app/poll_service.py, lines 19-134).  `recordings`
is what `fetch_recordings` returned for the window.  Missing credentials
or a missing CI service short-circuit to 0 (lines 21-27). -/
def poll_service.poll_account (account : Account) (env : PollEnv)
    (recordings : List Recording) (db : DB) : DB × Nat :=
  if !truthy account.twilio_account_sid
      || !truthy account.twilio_auth_token_encrypted then
    (db, 0)
  else if !truthy account.twilio_service_sid then
    (db, 0)
  else
    recordings.foldl (poll_service.poll_account_step account env) (db, 0)

/-- The per-record body of `poll_account` in src/scripts/poll_twilio.py
(lines 38-151).  Identical to the in-app service except for the
tracking-line step (lines 90-93): an unmatched destination KEEPS the
record with `tracking_line_id = None` (line 114) instead of skipping. -/
def poll_twilio.record_new_call (account : Account) (env : PollEnv)
    (db : DB) (rec : Recording) : Option Call :=
  if (db.calls.find? (fun c => c.account_id == account.id
      && c.twilio_recording_sid == rec.sid)).isSome then
    none
  else if rec.duration < MIN_RECORDING_SECONDS then
    none
  else
    match env.get_call_details rec.call_sid with
    | .error _ => none
    | .ok details =>
      let tracking_line := db.tracking_lines.find?
        (fun tl => tl.account_id == account.id
          && tl.twilio_phone_number == some details.to_number && tl.active)
      let recording_url := twilio_recording_url account rec.sid
      let call_date := parse_date env.strptime env.now rec.date_created
      let call : Call :=
        { id := db.next_id,
          account_id := account.id,
          tracking_line_id := tracking_line.map (fun tl => tl.id),
          twilio_call_sid := rec.call_sid,
          twilio_recording_sid := rec.sid,
          caller_number := details.from_number,
          call_duration := rec.duration,
          call_date := call_date,
          recording_url := some recording_url,
          source := "twilio",
          status := "processing",
          call_outcome := "answered" }
      match env.submit_recording_to_ci recording_url with
      | .ok tsid => some { call with transcript_sid := some tsid }
      | .error _ => some { call with status := "failed" }

/-- One loop iteration of the cron-script `poll_account`. -/
def poll_twilio.poll_account_step (account : Account) (env : PollEnv)
    (acc : DB × Nat) (rec : Recording) : DB × Nat :=
  match poll_twilio.record_new_call account env acc.1 rec with
  | none => acc
  | some call =>
    ({ acc.1 with calls := acc.1.calls ++ [call], next_id := acc.1.next_id + 1 },
     acc.2 + 1)

/-- `poll_account` (src/scripts/poll_twilio.py, lines 38-151). -/
def poll_twilio.poll_account (account : Account) (env : PollEnv)
    (recordings : List Recording) (db : DB) : DB × Nat :=
  if !truthy account.twilio_account_sid
      || !truthy account.twilio_auth_token_encrypted then
    (db, 0)
  else if !truthy account.twilio_service_sid then
    (db, 0)
  else
    recordings.foldl (poll_twilio.poll_account_step account env) (db, 0)

/-- The caller-number + time-window near-duplicate predicate of
`poll_short_answered_calls` (src/app/poll_service.py, lines 263-273):
an existing row of the same account and caller whose `call_date` lies in
the closed window of plus or minus 3 minutes (180 seconds) around this
record.  A row with `call_date` NULL never matches (SQL BETWEEN). -/
def near_dup_match (account : Account) (from_number : String)
    (call_date : Int) (c : Call) : Bool :=
  c.account_id == account.id && c.caller_number == from_number
    && (match c.call_date with
        | some cd => decide (call_date - 180 ≤ cd) && decide (cd ≤ call_date + 180)
        | none => false)

/-- The row stored by `poll_short_answered_calls` (src/app/poll_service.py,
lines 282-294): directly `completed`/`NOT_BOOKED` with the canned
summary — no transcript exists to classify. -/
def poll_service.short_call_row (account : Account) (db : DB)
    (rec : TwilioCallRecord) (tracking_line : TrackingLine)
    (call_date : Option Int) : Call :=
  { id := db.next_id,
    account_id := account.id,
    tracking_line_id := some tracking_line.id,
    twilio_call_sid := rec.sid,
    caller_number := rec.from_number,
    call_duration := rec.duration,
    call_date := call_date,
    source := "twilio",
    call_outcome := "answered",
    status := "completed",
    classification := some "NOT_BOOKED",
    summary := some "Very short call — no recording available." }

/-- The per-record body of `poll_short_answered_calls`
(src/app/poll_service.py, lines 204-299): skip records longer than 15
seconds, dedup by call SID, then — when the date is known — dedup by
caller number and a 3-minute window, require an active tracking line,
and store the row directly as `completed`/`NOT_BOOKED` with the canned
summary. -/
def poll_service.short_new_call (account : Account) (env : PollEnv)
    (db : DB) (rec : TwilioCallRecord) : Option Call :=
  if rec.duration > 15 then
    none
  else if (db.calls.find? (fun c => c.account_id == account.id
      && c.twilio_call_sid == rec.sid)).isSome then
    none
  else
    let call_date := parse_date env.strptime env.now rec.date_created
    let near_dup :=
      match call_date with
      | some d => (db.calls.find? (near_dup_match account rec.from_number d)).isSome
      | none => false
    if near_dup then
      none
    else
      match db.tracking_lines.find? (fun tl => tl.account_id == account.id
          && tl.twilio_phone_number == some rec.to_number && tl.active) with
      | none => none
      | some tracking_line =>
        some (poll_service.short_call_row account db rec tracking_line call_date)

/-- One loop iteration of `poll_short_answered_calls`. -/
def poll_service.short_step (account : Account) (env : PollEnv)
    (acc : DB × Nat) (rec : TwilioCallRecord) : DB × Nat :=
  match poll_service.short_new_call account env acc.1 rec with
  | none => acc
  | some call =>
    ({ acc.1 with calls := acc.1.calls ++ [call], next_id := acc.1.next_id + 1 },
     acc.2 + 1)

/-- `poll_short_answered_calls` (src/app/poll_service.py, lines 204-299).
`completed_calls` is what `fetch_calls` returned for status
`completed`. -/
def poll_service.poll_short_answered_calls (account : Account) (env : PollEnv)
    (completed_calls : List TwilioCallRecord) (db : DB) : DB × Nat :=
  if !truthy account.twilio_account_sid
      || !truthy account.twilio_auth_token_encrypted then
    (db, 0)
  else
    completed_calls.foldl (poll_service.short_step account env) (db, 0)

/-- The query filter of `retry_failed_submissions`
(src/app/poll_service.py, lines 309-313): this account, `failed`,
source `twilio`, fewer than 3 retries. -/
def retry_selected (account : Account) (c : Call) : Bool :=
  c.account_id == account.id && c.status == "failed" && c.source == "twilio"
    && decide (c.retry_count < 3)

/-- The loop body of `retry_failed_submissions` (lines 316-339): a call
without a recording URL is skipped untouched; otherwise `retry_count`
is incremented and the recording resubmitted — success moves the call
back to `processing` with the new transcript SID, failure leaves it
`failed` with the incremented count. -/
def retry_one (submit : String → Except Unit String) (c : Call) : Call :=
  if !truthy c.recording_url then c
  else
    let c := { c with retry_count := c.retry_count + 1 }
    match submit (c.recording_url.getD "") with
    | .ok tsid => { c with transcript_sid := some tsid, status := "processing" }
    | .error _ => c

/-- `retry_failed_submissions` (src/app/poll_service.py, lines 302-342).
The returned count is the number of calls actually attempted (the
`retried += 1` at the end of the loop body, which the
missing-recording-URL `continue` bypasses). -/
def poll_service.retry_failed_submissions (account : Account)
    (submit : String → Except Unit String) (db : DB) : DB × Nat :=
  if !truthy account.twilio_account_sid
      || !truthy account.twilio_auth_token_encrypted then
    (db, 0)
  else if !truthy account.twilio_service_sid then
    (db, 0)
  else
    ({ db with calls := db.calls.map (fun c =>
        if retry_selected account c then retry_one submit c else c) },
     (db.calls.filter (fun c =>
        retry_selected account c && truthy c.recording_url)).length)

/-- The query filter of `retry_failed_callrail`
(src/scripts/poll_callrail.py, lines 223-227). -/
def callrail_retry_selected (account : Account) (c : Call) : Bool :=
  c.account_id == account.id && c.source == "callrail" && c.status == "failed"
    && decide (c.retry_count < 3)

/-- The loop body of `retry_failed_callrail` (lines 233-269): skip calls
without a recording URL, increment `retry_count`, then transcribe and
classify locally.  Success stores the results and moves the call
directly to `completed`; a raise during transcription leaves the call
`failed`, and a raise during classification leaves it `failed` with the
transcript already assigned (the object was mutated before the raise
and the final commit persists it). -/
def callrail_retry_one (transcribe : String → Except Unit String)
    (classify : String → Except Unit ClassificationResult)
    (now : Int) (c : Call) : Call :=
  if !truthy c.recording_url then c
  else
    let c := { c with retry_count := c.retry_count + 1 }
    match transcribe (c.recording_url.getD "") with
    | .error _ => c
    | .ok t =>
      let c := { c with full_transcript := some t }
      match classify t with
      | .error _ => c
      | .ok r =>
        let c := set_result_fields c r
        let c := { c with analysed_at := some now, status := "completed" }
        if c.classification == some "VOICEMAIL" then
          { c with call_outcome := "voicemail" }
        else c

/-- `retry_failed_callrail` (src/scripts/poll_callrail.py, lines
221-272).  There is no credential guard in this driver; the early
return when no rows match is observationally the identity this
definition computes. -/
def poll_callrail.retry_failed_callrail (account : Account)
    (transcribe : String → Except Unit String)
    (classify : String → Except Unit ClassificationResult)
    (now : Int) (db : DB) : DB × Nat :=
  ({ db with calls := db.calls.map (fun c =>
      if callrail_retry_selected account c then
        callrail_retry_one transcribe classify now c
      else c) },
   (db.calls.filter (fun c =>
      callrail_retry_selected account c && truthy c.recording_url)).length)

/-- `n` successive invocations of the Twilio retry driver (the cron
scheduler firing repeatedly), accumulating the attempted-call counts. -/
def iterate_retry (account : Account) (submit : String → Except Unit String) :
    Nat → DB → DB × Nat
  | 0, db => (db, 0)
  | n + 1, db =>
    let r := poll_service.retry_failed_submissions account submit db
    let r2 := iterate_retry account submit n r.1
    (r2.1, r.2 + r2.2)

/-- `n` successive invocations of the CallRail retry driver. -/
def iterate_retry_callrail (account : Account)
    (transcribe : String → Except Unit String)
    (classify : String → Except Unit ClassificationResult) (now : Int) :
    Nat → DB → DB × Nat
  | 0, db => (db, 0)
  | n + 1, db =>
    let r := poll_callrail.retry_failed_callrail account transcribe classify now db
    let r2 := iterate_retry_callrail account transcribe classify now n r.1
    (r2.1, r.2 + r2.2)

/-! ### General lemmas about the store model -/

theorem find?_isSome_append {p : Call → Bool} {l ext : List Call}
    (h : (l.find? p).isSome) : ((l ++ ext).find? p).isSome := by
  rw [List.find?_isSome] at h ⊢
  obtain ⟨x, hx, hp⟩ := h
  exact ⟨x, List.mem_append_left _ hx, hp⟩

theorem find?_isSome_of_mem {p : Call → Bool} {l : List Call} {x : Call}
    (hx : x ∈ l) (hp : p x = true) : (l.find? p).isSome := by
  rw [List.find?_isSome]
  exact ⟨x, hx, hp⟩

theorem updateFirstCall_mem {p : Call → Bool} {f : Call → Call}
    {l : List Call} {x : Call} (hx : x ∈ updateFirstCall p f l) :
    x ∈ l ∨ ∃ y ∈ l, x = f y := by
  induction l with
  | nil => simp [updateFirstCall] at hx
  | cons c cs ih =>
    unfold updateFirstCall at hx
    by_cases hp : p c
    · simp only [hp, if_true] at hx
      rcases List.mem_cons.mp hx with h | h
      · exact Or.inr ⟨c, List.mem_cons_self c cs, h⟩
      · exact Or.inl (List.mem_cons_of_mem c h)
    · simp only [hp, if_false] at hx
      rcases List.mem_cons.mp hx with h | h
      · exact Or.inl (h ▸ List.mem_cons_self c cs)
      · rcases ih h with h2 | ⟨y, hy, hxy⟩
        · exact Or.inl (List.mem_cons_of_mem c h2)
        · exact Or.inr ⟨y, List.mem_cons_of_mem c hy, hxy⟩

/-- A later database state extends an earlier one: rows only appended to
`calls`, the other tables untouched.  Every step of a poll pass
preserves this relation. -/
def dbExtends (db2 db1 : DB) : Prop :=
  (∃ ext, db2.calls = db1.calls ++ ext) ∧
    db2.tracking_lines = db1.tracking_lines ∧ db2.accounts = db1.accounts

theorem dbExtends_refl (db : DB) : dbExtends db db :=
  ⟨⟨[], (List.append_nil _).symm⟩, rfl, rfl⟩

theorem dbExtends_trans {db3 db2 db1 : DB} (h32 : dbExtends db3 db2)
    (h21 : dbExtends db2 db1) : dbExtends db3 db1 := by
  obtain ⟨⟨e32, h32c⟩, h32t, h32a⟩ := h32
  obtain ⟨⟨e21, h21c⟩, h21t, h21a⟩ := h21
  exact ⟨⟨e21 ++ e32, by rw [h32c, h21c, List.append_assoc]⟩,
    h32t.trans h21t, h32a.trans h21a⟩

theorem poll_step_extends (account : Account) (env : PollEnv)
    (acc : DB × Nat) (rec : Recording) :
    dbExtends (poll_service.poll_account_step account env acc rec).1 acc.1 := by
  unfold poll_service.poll_account_step
  cases poll_service.record_new_call account env acc.1 rec with
  | none => exact dbExtends_refl _
  | some call => exact ⟨⟨[call], rfl⟩, rfl, rfl⟩

theorem poll_fold_extends (account : Account) (env : PollEnv)
    (recs : List Recording) (acc : DB × Nat) :
    dbExtends (recs.foldl (poll_service.poll_account_step account env) acc).1 acc.1 := by
  induction recs generalizing acc with
  | nil => exact dbExtends_refl _
  | cons r rs ih =>
    exact dbExtends_trans (ih (poll_service.poll_account_step account env acc r))
      (poll_step_extends account env acc r)

theorem record_new_call_fields {account : Account} {env : PollEnv}
    {db : DB} {rec : Recording} {call : Call}
    (h : poll_service.record_new_call account env db rec = some call) :
    call.account_id = account.id ∧ call.twilio_recording_sid = rec.sid := by
  simp only [poll_service.record_new_call] at h
  split at h
  · exact absurd h (by simp)
  · split at h
    · exact absurd h (by simp)
    · split at h
      · exact absurd h (by simp)
      · split at h
        · exact absurd h (by simp)
        · split at h <;>
            (injection h with h2; subst h2; exact ⟨rfl, rfl⟩)

theorem record_new_call_none_of_dedup {account : Account} {env : PollEnv}
    {db : DB} {rec : Recording}
    (h : (db.calls.find? (fun c => c.account_id == account.id
      && c.twilio_recording_sid == rec.sid)).isSome) :
    poll_service.record_new_call account env db rec = none := by
  unfold poll_service.record_new_call
  simp [h]

theorem record_new_call_none_extends {account : Account} {env : PollEnv}
    {db db2 : DB} {rec : Recording} (hext : dbExtends db2 db)
    (h : poll_service.record_new_call account env db rec = none) :
    poll_service.record_new_call account env db2 rec = none := by
  obtain ⟨⟨ext, hc⟩, ht, _⟩ := hext
  by_cases hd2 : (db2.calls.find? (fun c => c.account_id == account.id
      && c.twilio_recording_sid == rec.sid)).isSome
  · exact record_new_call_none_of_dedup hd2
  · have hd1 : ¬ (db.calls.find? (fun c => c.account_id == account.id
        && c.twilio_recording_sid == rec.sid)).isSome := by
      intro h1
      exact hd2 (hc ▸ find?_isSome_append h1)
    simp only [poll_service.record_new_call] at h ⊢
    rw [if_neg (by simpa using hd2)]
    rw [if_neg (by simpa using hd1)] at h
    by_cases hdur : rec.duration < MIN_RECORDING_SECONDS
    · rw [if_pos hdur]
    · rw [if_neg hdur] at h ⊢
      cases hcd : env.get_call_details rec.call_sid with
      | error e => simp [hcd]
      | ok details =>
        rw [hcd] at h
        simp only at h
        rw [ht]
        cases htl : db.tracking_lines.find? (fun tl => tl.account_id == account.id
            && tl.twilio_phone_number == some details.to_number && tl.active) with
        | none => simp [htl]
        | some tl =>
          rw [htl] at h
          simp only at h
          exfalso
          cases hs : env.submit_recording_to_ci (twilio_recording_url account rec.sid) with
          | ok tsid => rw [hs] at h; simp at h
          | error e => rw [hs] at h; simp at h

theorem record_new_call_some_dedup {account : Account} {env : PollEnv}
    {db db2 : DB} {rec : Recording} {call : Call}
    (h : poll_service.record_new_call account env db rec = some call)
    (hext : dbExtends db2
      { db with calls := db.calls ++ [call], next_id := db.next_id + 1 }) :
    poll_service.record_new_call account env db2 rec = none := by
  obtain ⟨hacc, hsid⟩ := record_new_call_fields h
  obtain ⟨⟨ext, hc⟩, _, _⟩ := hext
  apply record_new_call_none_of_dedup
  apply find?_isSome_of_mem (x := call)
  · rw [hc]
    simp
  · simp [hacc, hsid]

theorem poll_fold_noop {account : Account} {env : PollEnv}
    {recs : List Recording} {db : DB} {c : Nat}
    (h : ∀ rec ∈ recs, poll_service.record_new_call account env db rec = none) :
    recs.foldl (poll_service.poll_account_step account env) (db, c) = (db, c) := by
  induction recs with
  | nil => rfl
  | cons r rs ih =>
    have hr := h r (List.mem_cons_self r rs)
    have hstep : poll_service.poll_account_step account env (db, c) r = (db, c) := by
      unfold poll_service.poll_account_step
      simp [hr]
    rw [List.foldl_cons, hstep]
    exact ih (fun rec hrec => h rec (List.mem_cons_of_mem r hrec))

theorem poll_run_all_none (account : Account) (env : PollEnv) :
    ∀ (recs : List Recording) (acc : DB × Nat), ∀ rec ∈ recs,
      poll_service.record_new_call account env
        (recs.foldl (poll_service.poll_account_step account env) acc).1 rec = none := by
  intro recs
  induction recs with
  | nil => intro acc rec h; simp at h
  | cons r rs ih =>
    intro acc rec hmem
    rw [List.foldl_cons]
    rcases List.mem_cons.mp hmem with hr | hrs
    · subst hr
      cases hcall : poll_service.record_new_call account env acc.1 rec with
      | none =>
        have hstep : poll_service.poll_account_step account env acc rec = acc := by
          unfold poll_service.poll_account_step
          simp [hcall]
        rw [hstep]
        exact record_new_call_none_extends (poll_fold_extends account env rs acc) hcall
      | some call =>
        have hstep : poll_service.poll_account_step account env acc rec =
            ({ acc.1 with calls := acc.1.calls ++ [call], next_id := acc.1.next_id + 1 }, acc.2 + 1) := by
          unfold poll_service.poll_account_step
          simp [hcall]
        rw [hstep]
        exact record_new_call_some_dedup hcall
          (poll_fold_extends account env rs _)
    · exact ih (poll_service.poll_account_step account env acc r) rec hrs

/-- C7: running `poll(account, since)` a second time over the same
provider records (same recordings list, same external-service
behaviour) creates no new `Call` rows and returns a new-call count of
zero: the second run returns the first run's store unchanged. -/
theorem C7_poll_idempotent (account : Account) (env : PollEnv)
    (recordings : List Recording) (db : DB) :
    poll_service.poll_account account env recordings
        (poll_service.poll_account account env recordings db).1 =
      ((poll_service.poll_account account env recordings db).1, 0) := by
  unfold poll_service.poll_account
  by_cases hcred : (!truthy account.twilio_account_sid
      || !truthy account.twilio_auth_token_encrypted) = true
  · simp [hcred]
  · by_cases hsvc : (!truthy account.twilio_service_sid) = true
    · simp [hcred, hsvc]
    · simp only [hcred, hsvc, Bool.false_eq_true, if_false]
      exact poll_fold_noop (poll_run_all_none account env recordings (db, 0))

/-! ### Concrete fixtures used by witnesses and counterexamples -/

/-- An active tracking line of account 1 with both provider numbers. -/
def Fx.tl : TrackingLine :=
  { id := 1, account_id := 1,
    twilio_phone_number := some "+61400000001",
    callrail_tracking_number := some "+61400000002",
    active := true }

/-- An account with both providers configured and quota 0 of 10 used. -/
def Fx.acctOk : Account :=
  { id := 1,
    twilio_account_sid := some "AC1",
    twilio_auth_token_encrypted := some "tok",
    twilio_service_sid := some "GA1",
    callrail_api_key_encrypted := some "key",
    callrail_account_id := some "CR1",
    plan_calls_limit := some 10,
    plan_calls_used := some 0 }

/-- The same account at its quota (10 of 10 used). -/
def Fx.acctAtLimit : Account := { Fx.acctOk with plan_calls_used := some 10 }

/-- A store holding that account and tracking line and no calls. -/
def Fx.db0 : DB :=
  { calls := [], accounts := [Fx.acctOk], tracking_lines := [Fx.tl], next_id := 1 }

/-- A poll environment: call details resolve to a destination served by
no tracking line of the store, submission succeeds, dates do not parse. -/
def Fx.envUnmatched : PollEnv :=
  { get_call_details := fun _ => Except.ok ⟨"+61499999999", "+61411111111"⟩,
    submit_recording_to_ci := fun _ => Except.ok "GT2",
    strptime := fun _ => none,
    now := 0 }

/-- A poll environment whose call details match `Fx.tl`. -/
def Fx.envMatched : PollEnv :=
  { get_call_details := fun _ => Except.ok ⟨"+61400000001", "+61411111111"⟩,
    submit_recording_to_ci := fun _ => Except.ok "GT2",
    strptime := fun _ => none,
    now := 0 }

/-- A 10-second recording. -/
def Fx.rec10 : Recording :=
  { sid := some "RE1", call_sid := some "CA1", duration := 10, date_created := none }

/-- A 3-second recording. -/
def Fx.rec3 : Recording :=
  { sid := some "RE3", call_sid := some "CA3", duration := 3, date_created := none }

/-- An answered 30-second CallRail webhook payload with an inline
transcription, addressed to `Fx.tl`. -/
def Fx.payloadAnswered : CallrailPayload :=
  { id := some "CR100", answered := true, duration := 30,
    customer_phone_number := "+61411111111",
    tracking_phone_number := "+61400000002",
    recording := some "http-rec", transcription := some "hello transcript",
    start_time := none }

/-- A successful classification result. -/
def Fx.resultBooked : ClassificationResult :=
  { classification := some "JOB_BOOKED", confidence := some 1,
    summary := some "booked", service_type := some "oven repair",
    urgent := false, customer_name := none, customer_address := none,
    booking_time := some "tomorrow" }

/-! ### Row-shape lemmas for the CallRail webhook constructors -/

theorem callrail_missed_call_duration (db : DB) (p : CallrailPayload)
    (account : Account) (tline : TrackingLine) (d : Option Int) :
    (webhooks.callrail_missed_call db p account tline d).call_duration = p.duration :=
  rfl

theorem callrail_answered_call_duration (db : DB) (p : CallrailPayload)
    (account : Account) (tline : TrackingLine) (d : Option Int)
    (classify : String → Except Unit ClassificationResult) (now : Int) :
    (webhooks.callrail_answered_call db p account tline d classify now).call_duration
      = p.duration := by
  simp only [webhooks.callrail_answered_call]
  split
  · split
    · split <;> rfl
    · rfl
  · rfl

/-! ### C9: the minimum-duration filter -/

/-- C9: on both ingestion paths a record shorter than 3 seconds is
discarded and never stored, while a record of exactly 3 seconds passes
the minimum-duration filter and is retained.  Part 1: a sub-3-second
recording leaves the poll step untouched.  Part 2: a 3-second recording
that passes dedup, detail fetch and tracking-line match is stored.
Part 3: a sub-3-second CallRail webhook payload never changes the
store.  Part 4: a 3-second CallRail payload that reaches the duration
check is stored. -/
theorem C9_min_duration_filter :
    (∀ (account : Account) (env : PollEnv) (db : DB) (n : Nat) (rec : Recording),
      rec.duration < 3 →
      poll_service.poll_account_step account env (db, n) rec = (db, n)) ∧
    (∀ (account : Account) (env : PollEnv) (db : DB) (rec : Recording)
      (details : CallDetails) (tline : TrackingLine),
      rec.duration = 3 →
      db.calls.find? (fun c => c.account_id == account.id
        && c.twilio_recording_sid == rec.sid) = none →
      env.get_call_details rec.call_sid = Except.ok details →
      db.tracking_lines.find? (fun tl => tl.account_id == account.id
        && tl.twilio_phone_number == some details.to_number && tl.active)
        = some tline →
      ∃ call, poll_service.record_new_call account env db rec = some call ∧
        call.call_duration = 3) ∧
    (∀ (db : DB) (p : CallrailPayload)
      (classify : String → Except Unit ClassificationResult)
      (isoParse : String → Option Int) (now : Int),
      p.duration < 3 →
      (webhooks.callrail_callback db p classify isoParse now).1 = db) ∧
    (∀ (db : DB) (p : CallrailPayload)
      (classify : String → Except Unit ClassificationResult)
      (isoParse : String → Option Int) (now : Int)
      (tline : TrackingLine) (account : Account),
      p.duration = 3 →
      truthy p.id = true →
      db.tracking_lines.find? (fun tl =>
        tl.callrail_tracking_number == some p.tracking_phone_number && tl.active)
        = some tline →
      db.accounts.find? (fun a => a.id == tline.account_id) = some account →
      check_usage_limit account = false →
      db.calls.find? (fun c => c.account_id == account.id
        && c.callrail_call_id == some (p.id.getD "")) = none →
      ∃ c, (webhooks.callrail_callback db p classify isoParse now).1.calls
        = db.calls ++ [c] ∧ c.call_duration = 3) := by
  refine ⟨?_, ?_, ?_, ?_⟩
  · intro account env db n rec hdur
    have hnone : poll_service.record_new_call account env db rec = none := by
      simp only [poll_service.record_new_call, MIN_RECORDING_SECONDS]
      split <;> rfl
    simp [poll_service.poll_account_step, hnone]
  · intro account env db rec details tline hdur hded hcd htl
    simp only [poll_service.record_new_call, MIN_RECORDING_SECONDS, hded,
      Option.isSome_none, Bool.false_eq_true, if_false, hcd, htl]
    rw [if_neg (by omega)]
    cases hs : env.submit_recording_to_ci (twilio_recording_url account rec.sid) with
    | ok tsid => exact ⟨_, rfl, hdur⟩
    | error e => exact ⟨_, rfl, hdur⟩
  · intro db p classify isoParse now hdur
    simp only [webhooks.callrail_callback]
    repeat' split
    all_goals rfl
  · intro db p classify isoParse now tline account hdur hid htl hacct hlim hded
    simp only [webhooks.callrail_callback, hid, Bool.not_true, Bool.false_eq_true,
      if_false, htl, hacct, hlim, hded, Option.isSome_none]
    rw [if_neg (by omega)]
    split
    · refine ⟨webhooks.callrail_missed_call db p account tline
        (parse_date isoParse now p.start_time), ?_, ?_⟩
      · simp [setAccount]
      · exact callrail_missed_call_duration db p account tline _ ▸ hdur
    · refine ⟨webhooks.callrail_answered_call db p account tline
        (parse_date isoParse now p.start_time) classify now, ?_, ?_⟩
      · simp [setAccount]
      · exact callrail_answered_call_duration db p account tline _ classify now ▸ hdur

/-- Witness for C9 at concrete inputs: a 2-second recording and payload
are dropped; 3-second ones are stored. -/
theorem C9_witness :
    (poll_service.poll_account_step Fx.acctOk Fx.envMatched (Fx.db0, 0)
        { Fx.rec3 with duration := 2 } = (Fx.db0, 0)) ∧
    (∃ call, poll_service.record_new_call Fx.acctOk Fx.envMatched Fx.db0 Fx.rec3
        = some call ∧ call.call_duration = 3) ∧
    ((webhooks.callrail_callback Fx.db0 { Fx.payloadAnswered with duration := 2 }
        (fun _ => Except.ok Fx.resultBooked) (fun _ => none) 0).1 = Fx.db0) ∧
    (∃ c, (webhooks.callrail_callback Fx.db0 { Fx.payloadAnswered with duration := 3 }
        (fun _ => Except.ok Fx.resultBooked) (fun _ => none) 0).1.calls
      = Fx.db0.calls ++ [c] ∧ c.call_duration = 3) := by
  refine ⟨?_, ?_, ?_, ?_⟩
  · exact C9_min_duration_filter.1 Fx.acctOk Fx.envMatched Fx.db0 0
      { Fx.rec3 with duration := 2 } (by decide)
  · exact C9_min_duration_filter.2.1 Fx.acctOk Fx.envMatched Fx.db0 Fx.rec3
      ⟨"+61400000001", "+61411111111"⟩ Fx.tl rfl (by decide) rfl (by decide)
  · exact C9_min_duration_filter.2.2.1 Fx.db0 { Fx.payloadAnswered with duration := 2 }
      (fun _ => Except.ok Fx.resultBooked) (fun _ => none) 0 (by decide)
  · exact C9_min_duration_filter.2.2.2 Fx.db0 { Fx.payloadAnswered with duration := 3 }
      (fun _ => Except.ok Fx.resultBooked) (fun _ => none) 0 Fx.tl Fx.acctOk rfl
      (by decide) (by decide) (by decide) (by decide) (by decide)

/-! ### C3: unmatched tracking lines, poll paths versus webhook path -/

/-- Counterexample to C3: the in-app poll service
(src/app/poll_service.py `poll_account`, lines 71-76) DROPS a record
whose destination matches no active tracking line — no `Call` row with a
null tracking-line reference is created.  Concretely: a 10-second
recording whose call details resolve to `+61499999999`, a number served
by no line of the store, leaves the store unchanged and counts zero. -/
theorem C3_counterexample :
    poll_service.poll_account Fx.acctOk Fx.envUnmatched [Fx.rec10] Fx.db0
      = (Fx.db0, 0) ∧
    Fx.db0.tracking_lines.find? (fun tl => tl.account_id == Fx.acctOk.id
      && tl.twilio_phone_number == some "+61499999999" && tl.active) = none ∧
    Fx.envUnmatched.get_call_details Fx.rec10.call_sid
      = Except.ok ⟨"+61499999999", "+61411111111"⟩ := by
  refine ⟨by decide, by decide, rfl⟩

/-- C3 as amended: only the cron-script poll path keeps a record whose
destination matches no active tracking line (storing it with
`tracking_line_id = None`); the in-app poll service drops such records,
and so does the CallRail webhook.  Part 1: the script `poll_account`
stores the row with a null tracking-line reference.  Part 2: the in-app
`poll_account` step is a no-op on the same record.  Part 3: the CallRail
webhook acknowledges and drops a payload whose tracking number is
unknown. -/
theorem C3_tracking_line_asymmetry :
    (∀ (account : Account) (env : PollEnv) (db : DB) (rec : Recording)
      (details : CallDetails),
      db.calls.find? (fun c => c.account_id == account.id
        && c.twilio_recording_sid == rec.sid) = none →
      3 ≤ rec.duration →
      env.get_call_details rec.call_sid = Except.ok details →
      db.tracking_lines.find? (fun tl => tl.account_id == account.id
        && tl.twilio_phone_number == some details.to_number && tl.active) = none →
      ∃ call, poll_twilio.record_new_call account env db rec = some call ∧
        call.tracking_line_id = none) ∧
    (∀ (account : Account) (env : PollEnv) (db : DB) (n : Nat) (rec : Recording)
      (details : CallDetails),
      db.calls.find? (fun c => c.account_id == account.id
        && c.twilio_recording_sid == rec.sid) = none →
      3 ≤ rec.duration →
      env.get_call_details rec.call_sid = Except.ok details →
      db.tracking_lines.find? (fun tl => tl.account_id == account.id
        && tl.twilio_phone_number == some details.to_number && tl.active) = none →
      poll_service.poll_account_step account env (db, n) rec = (db, n)) ∧
    (∀ (db : DB) (p : CallrailPayload)
      (classify : String → Except Unit ClassificationResult)
      (isoParse : String → Option Int) (now : Int),
      truthy p.id = true →
      db.tracking_lines.find? (fun tl =>
        tl.callrail_tracking_number == some p.tracking_phone_number && tl.active)
        = none →
      webhooks.callrail_callback db p classify isoParse now
        = (db, ⟨200, "ignored, unknown tracking number"⟩)) := by
  refine ⟨?_, ?_, ?_⟩
  · intro account env db rec details hded hdur hcd htl
    simp only [poll_twilio.record_new_call, MIN_RECORDING_SECONDS, hded,
      Option.isSome_none, Bool.false_eq_true, if_false, hcd, htl]
    rw [if_neg (by omega)]
    cases hs : env.submit_recording_to_ci (twilio_recording_url account rec.sid) with
    | ok tsid => exact ⟨_, rfl, rfl⟩
    | error e => exact ⟨_, rfl, rfl⟩
  · intro account env db n rec details hded hdur hcd htl
    have hnone : poll_service.record_new_call account env db rec = none := by
      simp only [poll_service.record_new_call, MIN_RECORDING_SECONDS, hded,
        Option.isSome_none, Bool.false_eq_true, if_false, hcd, htl]
      rw [if_neg (by omega)]
    simp [poll_service.poll_account_step, hnone]
  · intro db p classify isoParse now hid htl
    simp [webhooks.callrail_callback, hid, htl]

/-- Witness for C3 as amended, at the concrete unmatched fixture. -/
theorem C3_witness :
    (∃ call, poll_twilio.record_new_call Fx.acctOk Fx.envUnmatched Fx.db0 Fx.rec10
      = some call ∧ call.tracking_line_id = none) ∧
    (poll_service.poll_account_step Fx.acctOk Fx.envUnmatched (Fx.db0, 0) Fx.rec10
      = (Fx.db0, 0)) ∧
    (webhooks.callrail_callback Fx.db0
        { Fx.payloadAnswered with tracking_phone_number := "+61499999998" }
        (fun _ => Except.ok Fx.resultBooked) (fun _ => none) 0
      = (Fx.db0, ⟨200, "ignored, unknown tracking number"⟩)) := by
  refine ⟨?_, ?_, ?_⟩
  · exact C3_tracking_line_asymmetry.1 Fx.acctOk Fx.envUnmatched Fx.db0 Fx.rec10
      ⟨"+61499999999", "+61411111111"⟩ (by decide) (by decide) rfl (by decide)
  · exact C3_tracking_line_asymmetry.2.1 Fx.acctOk Fx.envUnmatched Fx.db0 0 Fx.rec10
      ⟨"+61499999999", "+61411111111"⟩ (by decide) (by decide) rfl (by decide)
  · exact C3_tracking_line_asymmetry.2.2 Fx.db0
      { Fx.payloadAnswered with tracking_phone_number := "+61499999998" }
      (fun _ => Except.ok Fx.resultBooked) (fun _ => none) 0 (by decide) (by decide)

/-! ### C10: the transcript-ready webhook's lookup -/

/-- C10: the transcript-ready webhook locates its target by
`transcript_sid` alone.  Part 1: no unique constraint of the `calls`
table involves `transcript_sid`.  Part 2: the handler selects and
mutates the first call of the whole table whose `transcript_sid`
matches — here shown on the usage-limit branch — with no account
scoping: the rest of the table, which may contain another account's
call with the same transcript reference, is returned unchanged. -/
theorem C10_transcript_lookup_unscoped :
    (∀ uc ∈ call_unique_constraints, "transcript_sid" ∉ uc.2) ∧
    (∀ (db : DB) (s : String) (c1 : Call) (rest : List Call)
      (fo : Except Unit (Option ClassificationResult)) (ft : Except Unit String)
      (now : Int) (account : Account),
      s ≠ "" →
      db.calls = c1 :: rest →
      c1.transcript_sid = some s →
      db.accounts.find? (fun a => a.id == c1.account_id) = some account →
      truthy account.twilio_account_sid = true →
      check_usage_limit account = true →
      webhooks.twilio_ci_callback db (some s) fo ft now
        = ({ db with calls := { c1 with status := "limit_reached" } :: rest },
           ⟨200, "limit_reached"⟩)) := by
  constructor
  · intro uc huc
    fin_cases huc <;> decide
  · intro db s c1 rest fo ft now account hs hcalls hts hacct hsid hlim
    have htr : truthy (some s) = true := by
      simp [truthy]
      intro h
      exact hs h
    have hbeq : (c1.transcript_sid == some ((some s).getD "")) = true := by
      simp [hts]
    have hfind : List.find? (fun (c : Call) =>
        c.transcript_sid == some ((some s).getD "")) (c1 :: rest) = some c1 := by
      simp only [List.find?, hbeq]
    simp only [webhooks.twilio_ci_callback, htr, Bool.not_true, Bool.false_eq_true,
      if_false]
    rw [hcalls, hfind]
    simp only [hacct, hsid, Bool.not_true, Bool.false_eq_true, if_false, hlim,
      if_true, updateFirstCall]
    rw [if_pos hbeq]

/-- Witness for C10: a store whose first matching call belongs to
account 1 (at quota) while a second call of account 2 shares the same
transcript reference; the handler mutates the first and leaves the
second untouched. -/
theorem C10_witness :
    ("transcript_sid"
        ∉ (("uq_call_account_call_sid",
            ["account_id", "twilio_call_sid"]) : String × List String).2) ∧
    (webhooks.twilio_ci_callback
        { calls := [{ id := 1, account_id := 1, transcript_sid := some "GT1",
                      status := "processing", source := "twilio" },
                    { id := 2, account_id := 2, transcript_sid := some "GT1",
                      status := "processing", source := "twilio" }],
          accounts := [Fx.acctAtLimit], tracking_lines := [Fx.tl], next_id := 3 }
        (some "GT1") (Except.ok none) (Except.ok "") 0
      = ({ calls := [{ id := 1, account_id := 1, transcript_sid := some "GT1",
                       status := "limit_reached", source := "twilio" },
                     { id := 2, account_id := 2, transcript_sid := some "GT1",
                       status := "processing", source := "twilio" }],
           accounts := [Fx.acctAtLimit], tracking_lines := [Fx.tl], next_id := 3 },
         ⟨200, "limit_reached"⟩)) := by
  constructor
  · exact C10_transcript_lookup_unscoped.1
      ("uq_call_account_call_sid", ["account_id", "twilio_call_sid"])
      (by simp [call_unique_constraints])
  · exact C10_transcript_lookup_unscoped.2 _ "GT1"
      { id := 1, account_id := 1, transcript_sid := some "GT1",
        status := "processing", source := "twilio" }
      [{ id := 2, account_id := 2, transcript_sid := some "GT1",
         status := "processing", source := "twilio" }]
      (Except.ok none) (Except.ok "") 0 Fx.acctAtLimit
      (by decide) rfl rfl (by decide) (by decide) (by decide)

/-! ### Further fixtures -/

/-- A Twilio call mid-pipeline: submitted, awaiting its transcript. -/
def Fx.processingCall : Call :=
  { id := 1, account_id := 1, twilio_call_sid := some "CA1",
    twilio_recording_sid := some "RE1", caller_number := "+61411111111",
    call_duration := 45, recording_url := some "u", source := "twilio",
    call_outcome := "answered", status := "processing",
    transcript_sid := some "GT1" }

/-- Store with the processing call and its (under-quota) account. -/
def Fx.dbProcessing : DB :=
  { calls := [Fx.processingCall], accounts := [Fx.acctOk],
    tracking_lines := [Fx.tl], next_id := 2 }

/-- Store with the processing call and its account at quota. -/
def Fx.dbProcessingAtLimit : DB :=
  { calls := [Fx.processingCall], accounts := [Fx.acctAtLimit],
    tracking_lines := [Fx.tl], next_id := 2 }

/-- Empty store with the at-quota account. -/
def Fx.dbAtLimit : DB :=
  { calls := [], accounts := [Fx.acctAtLimit], tracking_lines := [Fx.tl],
    next_id := 1 }

/-! ### C2: behaviour at the usage limit -/

/-- Counterexample to C2: on the CallRail webhook path an at-quota
account's newly arriving classifiable call (answered, with recording and
inline transcription) is acknowledged with `limit_reached` but NO `Call`
row is stored at all — the store is returned unchanged, so no row with
`status=limit_reached` exists. -/
theorem C2_counterexample :
    webhooks.callrail_callback Fx.dbAtLimit Fx.payloadAnswered
        (fun _ => Except.ok Fx.resultBooked) (fun _ => none) 0
      = (Fx.dbAtLimit, ⟨200, "limit_reached"⟩) ∧
    Fx.dbAtLimit.calls = [] ∧
    Fx.payloadAnswered.answered = true ∧
    truthy Fx.payloadAnswered.transcription = true := by
  exact ⟨by decide, rfl, rfl, rfl⟩

/-- C2 as amended: at quota, the transcript-ready (Twilio) webhook marks
the already-stored call `limit_reached` without incrementing usage,
while the CallRail webhook acknowledges with `limit_reached` but stores
nothing at all (no row, no increment).  Part 1: the Twilio handler
rewrites only the matched call's status and leaves accounts untouched.
Part 2: the CallRail handler returns the store unchanged. -/
theorem C2_limit_reached_behaviour :
    (∀ (db : DB) (s : String) (call : Call)
      (fo : Except Unit (Option ClassificationResult)) (ft : Except Unit String)
      (now : Int) (account : Account),
      s ≠ "" →
      db.calls.find? (fun c => c.transcript_sid == some s) = some call →
      db.accounts.find? (fun a => a.id == call.account_id) = some account →
      truthy account.twilio_account_sid = true →
      check_usage_limit account = true →
      webhooks.twilio_ci_callback db (some s) fo ft now
        = ({ db with calls := updateFirstCall (fun c => c.transcript_sid == some s) (fun c => { c with status := "limit_reached" }) db.calls },
           ⟨200, "limit_reached"⟩)) ∧
    (∀ (db : DB) (p : CallrailPayload)
      (classify : String → Except Unit ClassificationResult)
      (isoParse : String → Option Int) (now : Int)
      (tline : TrackingLine) (account : Account),
      truthy p.id = true →
      db.tracking_lines.find? (fun tl =>
        tl.callrail_tracking_number == some p.tracking_phone_number && tl.active)
        = some tline →
      db.accounts.find? (fun a => a.id == tline.account_id) = some account →
      check_usage_limit account = true →
      webhooks.callrail_callback db p classify isoParse now
        = (db, ⟨200, "limit_reached"⟩)) := by
  constructor
  · intro db s call fo ft now account hs hfind hacct hsid hlim
    have htr : truthy (some s) = true := by
      simp [truthy]
      intro h
      exact hs h
    simp only [webhooks.twilio_ci_callback, htr, Bool.not_true, Bool.false_eq_true,
      if_false, Option.getD_some]
    rw [hfind]
    simp only [hacct, hsid, Bool.not_true, Bool.false_eq_true, if_false, hlim,
      if_true]
  · intro db p classify isoParse now tline account hid htl hacct hlim
    simp [webhooks.callrail_callback, hid, htl, hacct, hlim]

/-- Witness for C2: the Twilio handler at quota marks the stored
processing call `limit_reached`; the CallRail handler at quota stores
nothing. -/
theorem C2_witness :
    (webhooks.twilio_ci_callback Fx.dbProcessingAtLimit (some "GT1")
        (Except.ok none) (Except.ok "") 0
      = ({ Fx.dbProcessingAtLimit with calls := updateFirstCall (fun c => c.transcript_sid == some "GT1") (fun c => { c with status := "limit_reached" }) Fx.dbProcessingAtLimit.calls },
         ⟨200, "limit_reached"⟩)) ∧
    (webhooks.callrail_callback Fx.dbAtLimit Fx.payloadAnswered
        (fun _ => Except.ok Fx.resultBooked) (fun _ => none) 0
      = (Fx.dbAtLimit, ⟨200, "limit_reached"⟩)) := by
  constructor
  · exact C2_limit_reached_behaviour.1 Fx.dbProcessingAtLimit "GT1" Fx.processingCall
      (Except.ok none) (Except.ok "") 0 Fx.acctAtLimit (by decide) (by decide)
      (by decide) (by decide) (by decide)
  · exact C2_limit_reached_behaviour.2 Fx.dbAtLimit Fx.payloadAnswered
      (fun _ => Except.ok Fx.resultBooked) (fun _ => none) 0 Fx.tl Fx.acctAtLimit
      (by decide) (by decide) (by decide) (by decide)

/-! ### C6: completed calls and non-null classification -/

/-- Counterexample to C6: when `fetch_operator_results` succeeds but
returns no operator results (`None`), `twilio_ci_callback` still marks
the answered call `completed` — with a null classification. -/
theorem C6_counterexample :
    (webhooks.twilio_ci_callback Fx.dbProcessing (some "GT1")
        (Except.ok none) (Except.ok "text") 0).1.calls
      = [{ Fx.processingCall with status := "completed", full_transcript := some "text", analysed_at := some 0 }] ∧
    ({ Fx.processingCall with status := "completed", full_transcript := some "text", analysed_at := some 0 } : Call).classification = none ∧
    ({ Fx.processingCall with status := "completed", full_transcript := some "text", analysed_at := some 0 } : Call).call_outcome = "answered" := by
  exact ⟨by decide, rfl, rfl⟩

theorem ci_success_call_status (call : Call)
    (opRes : Option ClassificationResult) (text : String) (now : Int) :
    (webhooks.ci_success_call call opRes text now).status = "completed" := rfl

theorem ci_success_call_classification (call : Call) (r : ClassificationResult)
    (text : String) (now : Int) :
    (webhooks.ci_success_call call (some r) text now).classification
      = r.classification := by
  simp only [webhooks.ci_success_call, webhooks.ci_apply_results]
  split <;> split <;> rfl

/-- C6 as amended: a `Call` left `completed` carries a non-null
classification for `answered`/`voicemail` outcomes whenever the
classification backend actually returned a verdict; the one exception is
the transcript-ready webhook, which marks the call `completed` even when
the backend returns no operator results (or a result with no
classification), leaving an answered call completed with a null
classification.  Part 1: the Twilio success write carries the returned
verdict.  Part 2: the short-answered-call sweep always stores
`NOT_BOOKED`.  Part 3: the CallRail inline classification carries the
returned verdict. -/
theorem C6_completed_classification :
    (∀ (db : DB) (s : String) (call : Call) (r : ClassificationResult)
      (text : String) (now : Int) (account : Account) (v : String),
      s ≠ "" →
      db.calls.find? (fun c => c.transcript_sid == some s) = some call →
      db.accounts.find? (fun a => a.id == call.account_id) = some account →
      truthy account.twilio_account_sid = true →
      check_usage_limit account = false →
      r.classification = some v →
      (webhooks.twilio_ci_callback db (some s) (Except.ok (some r))
          (Except.ok text) now).1.calls
        = updateFirstCall (fun c => c.transcript_sid == some s)
            (fun _ => webhooks.ci_success_call call (some r) text now) db.calls ∧
      (webhooks.ci_success_call call (some r) text now).status = "completed" ∧
      (webhooks.ci_success_call call (some r) text now).classification = some v) ∧
    (∀ (account : Account) (env : PollEnv) (db : DB) (rec : TwilioCallRecord)
      (c : Call),
      poll_service.short_new_call account env db rec = some c →
      c.status = "completed" ∧ c.classification = some "NOT_BOOKED") ∧
    (∀ (db : DB) (p : CallrailPayload) (account : Account) (tline : TrackingLine)
      (d : Option Int) (classify : String → Except Unit ClassificationResult)
      (now : Int) (r : ClassificationResult) (v : String),
      truthy p.transcription = true →
      classify (p.transcription.getD "") = Except.ok r →
      r.classification = some v →
      (webhooks.callrail_answered_call db p account tline d classify now).status
        = "completed" ∧
      (webhooks.callrail_answered_call db p account tline d classify now).classification
        = some v) := by
  refine ⟨?_, ?_, ?_⟩
  · intro db s call r text now account v hs hfind hacct hsid hlim hcls
    refine ⟨?_, ci_success_call_status call (some r) text now,
      (ci_success_call_classification call r text now).trans hcls⟩
    have htr : truthy (some s) = true := by
      simp [truthy]
      intro h
      exact hs h
    simp only [webhooks.twilio_ci_callback, htr, Bool.not_true, Bool.false_eq_true,
      if_false, Option.getD_some]
    rw [hfind]
    simp only [hacct, hsid, Bool.not_true, Bool.false_eq_true, if_false, hlim,
      if_true, setAccount, webhooks.ci_success_call]
  · intro account env db rec c h
    simp only [poll_service.short_new_call] at h
    split at h
    · exact absurd h (by simp)
    · split at h
      · exact absurd h (by simp)
      · split at h
        · exact absurd h (by simp)
        · split at h
          · exact absurd h (by simp)
          · injection h with h2
            subst h2
            exact ⟨rfl, rfl⟩
  · intro db p account tline d classify now r v ht hcl hcls
    simp only [webhooks.callrail_answered_call, ht, if_true, hcl]
    constructor
    · split <;> rfl
    · split <;> simp [set_result_fields, hcls]

/-- Witness for C6 at concrete inputs: a successful Twilio result write,
a short-sweep row, and a CallRail inline classification. -/
theorem C6_witness :
    ((webhooks.twilio_ci_callback Fx.dbProcessing (some "GT1")
        (Except.ok (some Fx.resultBooked)) (Except.ok "text") 0).1.calls
      = updateFirstCall (fun c => c.transcript_sid == some "GT1")
          (fun _ => webhooks.ci_success_call Fx.processingCall
            (some Fx.resultBooked) "text" 0) Fx.dbProcessing.calls ∧
      (webhooks.ci_success_call Fx.processingCall (some Fx.resultBooked) "text" 0).status
        = "completed" ∧
      (webhooks.ci_success_call Fx.processingCall (some Fx.resultBooked) "text" 0).classification
        = some "JOB_BOOKED") ∧
    (∀ c, poll_service.short_new_call Fx.acctOk Fx.envMatched Fx.db0
        { sid := some "CA9", to_number := "+61400000001",
          from_number := "+61411111111", duration := 5, date_created := none }
        = some c →
      c.status = "completed" ∧ c.classification = some "NOT_BOOKED") ∧
    ((webhooks.callrail_answered_call Fx.db0 Fx.payloadAnswered Fx.acctOk Fx.tl none
        (fun _ => Except.ok Fx.resultBooked) 0).status = "completed" ∧
      (webhooks.callrail_answered_call Fx.db0 Fx.payloadAnswered Fx.acctOk Fx.tl none
        (fun _ => Except.ok Fx.resultBooked) 0).classification = some "JOB_BOOKED") := by
  refine ⟨?_, ?_, ?_⟩
  · exact C6_completed_classification.1 Fx.dbProcessing "GT1" Fx.processingCall
      Fx.resultBooked "text" 0 Fx.acctOk "JOB_BOOKED" (by decide) (by decide)
      (by decide) (by decide) (by decide) rfl
  · intro c h
    exact C6_completed_classification.2.1 Fx.acctOk Fx.envMatched Fx.db0
      { sid := some "CA9", to_number := "+61400000001",
        from_number := "+61411111111", duration := 5, date_created := none } c h
  · exact C6_completed_classification.2.2 Fx.db0 Fx.payloadAnswered Fx.acctOk Fx.tl
      none (fun _ => Except.ok Fx.resultBooked) 0 Fx.resultBooked "JOB_BOOKED"
      (by decide) rfl rfl

/-! ### C4: status transitions -/

/-- A call already analysed and completed. -/
def Fx.completedCall : Call :=
  { Fx.processingCall with
    status := "completed",
    classification := some "JOB_BOOKED", analysed_at := some 0 }

/-- Store with the completed call and its account at quota. -/
def Fx.dbCompletedAtLimit : DB :=
  { calls := [Fx.completedCall], accounts := [Fx.acctAtLimit],
    tracking_lines := [Fx.tl], next_id := 2 }

/-- A failed Twilio submission eligible for retry. -/
def Fx.failedCall : Call :=
  { id := 1, account_id := 1, twilio_recording_sid := some "RE1",
    recording_url := some "u", source := "twilio", call_outcome := "answered",
    status := "failed", retry_count := 0 }

/-- Store with the failed Twilio call. -/
def Fx.dbFailed : DB :=
  { calls := [Fx.failedCall], accounts := [Fx.acctOk],
    tracking_lines := [Fx.tl], next_id := 2 }

/-- A failed CallRail call eligible for retry. -/
def Fx.failedCallrail : Call :=
  { Fx.failedCall with
    source := "callrail", callrail_call_id := some "CR1",
    twilio_recording_sid := none }

/-- Store with the failed CallRail call. -/
def Fx.dbFailedCallrail : DB :=
  { calls := [Fx.failedCallrail], accounts := [Fx.acctOk],
    tracking_lines := [Fx.tl], next_id := 2 }

/-- Counterexample to C4: a redelivered transcript-ready webhook for a
call that is already `completed`, arriving while the account is at
quota, moves the call out of `completed` into `limit_reached` — the
handler never checks the current status. -/
theorem C4_counterexample :
    (webhooks.twilio_ci_callback Fx.dbCompletedAtLimit (some "GT1")
        (Except.ok none) (Except.ok "") 0).1.calls
      = [{ Fx.completedCall with status := "limit_reached" }] ∧
    Fx.completedCall.status = "completed" := by
  exact ⟨by decide, rfl⟩

/-- C4 as amended: no pipeline operation ever writes a call back to
`pending`; the retry drivers touch only `failed` calls (moving them to
`processing` or leaving them `failed` on the Twilio driver, to
`completed` or `failed` on the CallRail driver); the CallRail webhook
never mutates an existing call; but the transcript-ready webhook sets
the matched call to `completed`, `failed` or `limit_reached` regardless
of its current status, so a redelivered webhook can move a `completed`
call to `failed` or `limit_reached`.  Part 1: every call the Twilio
webhook leaves in the store is either an untouched input row or has one
of those three statuses.  Part 2 and 3: the retry drivers.  Part 4: the
CallRail webhook only appends. -/
theorem C4_status_transitions :
    (∀ (db : DB) (ts : Option String)
      (fo : Except Unit (Option ClassificationResult)) (ft : Except Unit String)
      (now : Int) (c2 : Call),
      c2 ∈ (webhooks.twilio_ci_callback db ts fo ft now).1.calls →
      c2 ∈ db.calls ∨ c2.status = "completed" ∨ c2.status = "failed"
        ∨ c2.status = "limit_reached") ∧
    (∀ (account : Account) (submit : String → Except Unit String) (db : DB)
      (c2 : Call),
      c2 ∈ (poll_service.retry_failed_submissions account submit db).1.calls →
      c2 ∈ db.calls ∨ ∃ c1 ∈ db.calls, c1.status = "failed"
        ∧ (c2.status = "processing" ∨ c2.status = "failed")) ∧
    (∀ (account : Account) (transcribe : String → Except Unit String)
      (classify : String → Except Unit ClassificationResult) (now : Int)
      (db : DB) (c2 : Call),
      c2 ∈ (poll_callrail.retry_failed_callrail account transcribe classify now db).1.calls →
      c2 ∈ db.calls ∨ ∃ c1 ∈ db.calls, c1.status = "failed"
        ∧ (c2.status = "completed" ∨ c2.status = "failed")) ∧
    (∀ (db : DB) (p : CallrailPayload)
      (classify : String → Except Unit ClassificationResult)
      (isoParse : String → Option Int) (now : Int),
      ∃ ext, (webhooks.callrail_callback db p classify isoParse now).1.calls
        = db.calls ++ ext) := by
  refine ⟨?_, ?_, ?_, ?_⟩
  · intro db ts fo ft now c2 hc2
    simp only [webhooks.twilio_ci_callback] at hc2
    split at hc2
    · exact Or.inl hc2
    · split at hc2
      · exact Or.inl hc2
      · split at hc2
        · exact Or.inl hc2
        · split at hc2
          · exact Or.inl hc2
          · split at hc2
            · rcases updateFirstCall_mem hc2 with h | ⟨y, _, rfl⟩
              · exact Or.inl h
              · exact Or.inr (Or.inr (Or.inr rfl))
            · split at hc2
              · rcases updateFirstCall_mem hc2 with h | ⟨y, _, rfl⟩
                · exact Or.inl h
                · exact Or.inr (Or.inr (Or.inl rfl))
              · split at hc2
                · rcases updateFirstCall_mem hc2 with h | ⟨y, _, rfl⟩
                  · exact Or.inl h
                  · exact Or.inr (Or.inr (Or.inl rfl))
                · rcases updateFirstCall_mem hc2 with h | ⟨y, _, rfl⟩
                  · exact Or.inl h
                  · exact Or.inr (Or.inl rfl)
  · intro account submit db c2 hc2
    simp only [poll_service.retry_failed_submissions] at hc2
    split at hc2
    · exact Or.inl hc2
    · split at hc2
      · exact Or.inl hc2
      · obtain ⟨c1, hc1, hmap⟩ := List.mem_map.mp hc2
        by_cases hsel : retry_selected account c1 = true
        · rw [if_pos hsel] at hmap
          have hfail : c1.status = "failed" := by
            have := hsel
            simp only [retry_selected, Bool.and_eq_true, beq_iff_eq] at this
            exact this.1.1.2
          subst hmap
          by_cases hurl : truthy c1.recording_url = true
          · right
            refine ⟨c1, hc1, hfail, ?_⟩
            simp only [retry_one, hurl, Bool.not_true, Bool.false_eq_true,
              if_false, if_true]
            cases submit (c1.recording_url.getD "") with
            | ok tsid => exact Or.inl rfl
            | error e => exact Or.inr hfail
          · left
            simp only [retry_one, hurl, if_true]
            simpa [retry_one, hurl] using hc1
        · rw [if_neg hsel] at hmap
          exact Or.inl (hmap ▸ hc1)
  · intro account transcribe classify now db c2 hc2
    simp only [poll_callrail.retry_failed_callrail] at hc2
    obtain ⟨c1, hc1, hmap⟩ := List.mem_map.mp hc2
    by_cases hsel : callrail_retry_selected account c1 = true
    · rw [if_pos hsel] at hmap
      have hfail : c1.status = "failed" := by
        have := hsel
        simp only [callrail_retry_selected, Bool.and_eq_true, beq_iff_eq] at this
        exact this.1.2
      subst hmap
      by_cases hurl : truthy c1.recording_url = true
      · right
        refine ⟨c1, hc1, hfail, ?_⟩
        cases htrr : transcribe (c1.recording_url.getD "") with
        | error e =>
          simp only [callrail_retry_one, hurl, Bool.not_true, Bool.false_eq_true,
            if_false, htrr]
          exact Or.inr hfail
        | ok t =>
          cases hclr : classify t with
          | error e =>
            simp only [callrail_retry_one, hurl, Bool.not_true, Bool.false_eq_true,
              if_false, htrr, hclr]
            exact Or.inr hfail
          | ok r =>
            simp only [callrail_retry_one, hurl, Bool.not_true, Bool.false_eq_true,
              if_false, htrr, hclr]
            split
            · exact Or.inl rfl
            · exact Or.inl rfl
      · left
        simpa [callrail_retry_one, hurl] using hc1
    · rw [if_neg hsel] at hmap
      exact Or.inl (hmap ▸ hc1)
  · intro db p classify isoParse now
    simp only [webhooks.callrail_callback]
    split
    · exact ⟨[], by simp⟩
    · split
      · exact ⟨[], by simp⟩
      · split
        · exact ⟨[], by simp⟩
        · split
          · exact ⟨[], by simp⟩
          · split
            · exact ⟨[], by simp⟩
            · split
              · exact ⟨[], by simp⟩
              · split
                · exact ⟨_, by simp only [setAccount]; rfl⟩
                · exact ⟨_, by simp only [setAccount]; rfl⟩

/-- The completed call after the redelivered at-quota webhook. -/
def Fx.limitCall : Call := { Fx.completedCall with status := "limit_reached" }

/-- The failed call after one successful retry. -/
def Fx.retriedCall : Call :=
  { Fx.failedCall with
    retry_count := 1, transcript_sid := some "GT2", status := "processing" }

/-- Witness for C4 at concrete inputs: one instance of each part. -/
theorem C4_witness :
    (Fx.limitCall ∈ Fx.dbCompletedAtLimit.calls
      ∨ Fx.limitCall.status = "completed"
      ∨ Fx.limitCall.status = "failed"
      ∨ Fx.limitCall.status = "limit_reached") ∧
    (Fx.retriedCall ∈ Fx.dbFailed.calls
      ∨ ∃ c1 ∈ Fx.dbFailed.calls, c1.status = "failed"
        ∧ (Fx.retriedCall.status = "processing"
          ∨ Fx.retriedCall.status = "failed")) ∧
    (∃ ext, (webhooks.callrail_callback Fx.db0 Fx.payloadAnswered
        (fun _ => Except.ok Fx.resultBooked) (fun _ => none) 0).1.calls
      = Fx.db0.calls ++ ext) := by
  refine ⟨?_, ?_, ?_⟩
  · exact C4_status_transitions.1 Fx.dbCompletedAtLimit (some "GT1")
      (Except.ok none) (Except.ok "") 0 _ (by decide)
  · exact C4_status_transitions.2.1 Fx.acctOk (fun _ => Except.ok "GT2") Fx.dbFailed
      _ (by decide)
  · exact C4_status_transitions.2.2.2 Fx.db0 Fx.payloadAnswered
      (fun _ => Except.ok Fx.resultBooked) (fun _ => none) 0

/-! ### C1: the usage gate -/

/-- Counterexample to C1: on the CallRail webhook path, a call whose
inline classification raises is stored with `status="failed"` AND the
account counter is incremented at that point (line 235 of
src/app/webhooks/routes.py runs regardless of the classification
outcome). -/
theorem C1_counterexample :
    (webhooks.callrail_callback Fx.db0 Fx.payloadAnswered
        (fun _ => Except.error ()) (fun _ => none) 0).1.accounts
      = [{ Fx.acctOk with plan_calls_used := some 1 }] ∧
    ((webhooks.callrail_callback Fx.db0 Fx.payloadAnswered
        (fun _ => Except.error ()) (fun _ => none) 0).1.calls.map
      (fun c => c.status)) = ["failed"] ∧
    Fx.acctOk.plan_calls_used = some 0 := by
  exact ⟨by decide, by decide, rfl⟩

/-- C1 as amended: on the Twilio path the counter moves only on the
transcript-ready webhook's successful write, never on submission or
failure; on the CallRail webhook path the counter is incremented exactly
once per stored row at intake — whether the row ends `completed`,
`processing` or `failed` — and the poll service and both retry drivers
never touch it.  Part 1: the Twilio handler leaves accounts unchanged
except on its 200/"ok" response, where exactly one account row is
incremented once.  Part 2: a raised result fetch on the Twilio path
marks the call failed and does not increment.  Part 3: the poll
submission pass never touches accounts.  Part 4 and 5: the retry
drivers never touch accounts.  Part 6: the CallRail webhook leaves
accounts unchanged except on its 200/"ok" response, where exactly one
account row is incremented once alongside exactly one appended call. -/
theorem C1_usage_gate :
    (∀ (db : DB) (ts : Option String)
      (fo : Except Unit (Option ClassificationResult)) (ft : Except Unit String)
      (now : Int),
      (webhooks.twilio_ci_callback db ts fo ft now).1.accounts = db.accounts
      ∨ ((webhooks.twilio_ci_callback db ts fo ft now).2 = ⟨200, "ok"⟩
        ∧ ∃ a ∈ db.accounts, (webhooks.twilio_ci_callback db ts fo ft now).1.accounts
            = (setAccount db (increment_usage a)).accounts)) ∧
    (∀ (db : DB) (s : String) (call : Call) (ft : Except Unit String)
      (now : Int) (account : Account),
      s ≠ "" →
      db.calls.find? (fun c => c.transcript_sid == some s) = some call →
      db.accounts.find? (fun a => a.id == call.account_id) = some account →
      truthy account.twilio_account_sid = true →
      check_usage_limit account = false →
      webhooks.twilio_ci_callback db (some s) (Except.error ()) ft now
        = ({ db with calls := updateFirstCall (fun c => c.transcript_sid == some s) (fun c => { c with status := "failed" }) db.calls },
           ⟨500, "error"⟩)) ∧
    (∀ (account : Account) (env : PollEnv) (recordings : List Recording) (db : DB),
      (poll_service.poll_account account env recordings db).1.accounts
        = db.accounts) ∧
    (∀ (account : Account) (submit : String → Except Unit String) (db : DB),
      (poll_service.retry_failed_submissions account submit db).1.accounts
        = db.accounts) ∧
    (∀ (account : Account) (transcribe : String → Except Unit String)
      (classify : String → Except Unit ClassificationResult) (now : Int) (db : DB),
      (poll_callrail.retry_failed_callrail account transcribe classify now db).1.accounts
        = db.accounts) ∧
    (∀ (db : DB) (p : CallrailPayload)
      (classify : String → Except Unit ClassificationResult)
      (isoParse : String → Option Int) (now : Int),
      (webhooks.callrail_callback db p classify isoParse now).1.accounts
          = db.accounts
      ∨ ((webhooks.callrail_callback db p classify isoParse now).2 = ⟨200, "ok"⟩
        ∧ ∃ a ∈ db.accounts,
          (webhooks.callrail_callback db p classify isoParse now).1.accounts
            = (setAccount db (increment_usage a)).accounts
          ∧ (webhooks.callrail_callback db p classify isoParse now).1.calls.length
            = db.calls.length + 1)) := by
  refine ⟨?_, ?_, ?_, ?_, ?_, ?_⟩
  · intro db ts fo ft now
    simp only [webhooks.twilio_ci_callback]
    split
    · exact Or.inl rfl
    · split
      · exact Or.inl rfl
      · split
        · exact Or.inl rfl
        · rename_i account hacct
          split
          · exact Or.inl rfl
          · split
            · exact Or.inl rfl
            · split
              · exact Or.inl rfl
              · split
                · exact Or.inl rfl
                · exact Or.inr ⟨rfl,
                    account, List.mem_of_find?_eq_some hacct, rfl⟩
  · intro db s call ft now account hs hfind hacct hsid hlim
    have htr : truthy (some s) = true := by
      simp [truthy]
      intro h
      exact hs h
    simp only [webhooks.twilio_ci_callback, htr, Bool.not_true, Bool.false_eq_true,
      if_false, Option.getD_some]
    rw [hfind]
    simp only [hacct, hsid, Bool.not_true, Bool.false_eq_true, if_false, hlim,
      if_true]
  · intro account env recordings db
    unfold poll_service.poll_account
    split
    · rfl
    · split
      · rfl
      · exact (poll_fold_extends account env recordings (db, 0)).2.2
  · intro account submit db
    unfold poll_service.retry_failed_submissions
    split
    · rfl
    · split <;> rfl
  · intro account transcribe classify now db
    rfl
  · intro db p classify isoParse now
    simp only [webhooks.callrail_callback]
    split
    · exact Or.inl rfl
    · split
      · exact Or.inl rfl
      · split
        · exact Or.inl rfl
        · rename_i account hacct
          split
          · exact Or.inl rfl
          · split
            · exact Or.inl rfl
            · split
              · exact Or.inl rfl
              · split
                · exact Or.inr ⟨rfl, account,
                    List.mem_of_find?_eq_some hacct, rfl, by simp [setAccount]⟩
                · exact Or.inr ⟨rfl, account,
                    List.mem_of_find?_eq_some hacct, rfl, by simp [setAccount]⟩

/-- Witness for C1 at concrete inputs: one instance of each part. -/
theorem C1_witness :
    ((webhooks.twilio_ci_callback Fx.dbProcessing (some "GT1")
        (Except.ok (some Fx.resultBooked)) (Except.ok "text") 0).1.accounts
        = Fx.dbProcessing.accounts
      ∨ ((webhooks.twilio_ci_callback Fx.dbProcessing (some "GT1")
          (Except.ok (some Fx.resultBooked)) (Except.ok "text") 0).2 = ⟨200, "ok"⟩
        ∧ ∃ a ∈ Fx.dbProcessing.accounts,
          (webhooks.twilio_ci_callback Fx.dbProcessing (some "GT1")
            (Except.ok (some Fx.resultBooked)) (Except.ok "text") 0).1.accounts
              = (setAccount Fx.dbProcessing (increment_usage a)).accounts)) ∧
    (webhooks.twilio_ci_callback Fx.dbProcessing (some "GT1") (Except.error ())
        (Except.ok "") 0
      = ({ Fx.dbProcessing with calls := updateFirstCall (fun c => c.transcript_sid == some "GT1") (fun c => { c with status := "failed" }) Fx.dbProcessing.calls },
         ⟨500, "error"⟩)) ∧
    ((poll_service.poll_account Fx.acctOk Fx.envMatched [Fx.rec10] Fx.db0).1.accounts
      = Fx.db0.accounts) ∧
    ((poll_service.retry_failed_submissions Fx.acctOk (fun _ => Except.error ())
        Fx.dbFailed).1.accounts = Fx.dbFailed.accounts) ∧
    ((poll_callrail.retry_failed_callrail Fx.acctOk (fun _ => Except.error ())
        (fun _ => Except.error ()) 0 Fx.dbFailedCallrail).1.accounts
      = Fx.dbFailedCallrail.accounts) ∧
    ((webhooks.callrail_callback Fx.db0 Fx.payloadAnswered
        (fun _ => Except.error ()) (fun _ => none) 0).1.accounts = Fx.db0.accounts
      ∨ ((webhooks.callrail_callback Fx.db0 Fx.payloadAnswered
          (fun _ => Except.error ()) (fun _ => none) 0).2 = ⟨200, "ok"⟩
        ∧ ∃ a ∈ Fx.db0.accounts,
          (webhooks.callrail_callback Fx.db0 Fx.payloadAnswered
            (fun _ => Except.error ()) (fun _ => none) 0).1.accounts
              = (setAccount Fx.db0 (increment_usage a)).accounts
          ∧ (webhooks.callrail_callback Fx.db0 Fx.payloadAnswered
              (fun _ => Except.error ()) (fun _ => none) 0).1.calls.length
            = Fx.db0.calls.length + 1)) := by
  refine ⟨?_, ?_, ?_, ?_, ?_, ?_⟩
  · exact C1_usage_gate.1 Fx.dbProcessing (some "GT1")
      (Except.ok (some Fx.resultBooked)) (Except.ok "text") 0
  · exact C1_usage_gate.2.1 Fx.dbProcessing "GT1" Fx.processingCall
      (Except.ok "") 0 Fx.acctOk (by decide) (by decide) (by decide) (by decide)
      (by decide)
  · exact C1_usage_gate.2.2.1 Fx.acctOk Fx.envMatched [Fx.rec10] Fx.db0
  · exact C1_usage_gate.2.2.2.1 Fx.acctOk (fun _ => Except.error ()) Fx.dbFailed
  · exact C1_usage_gate.2.2.2.2.1 Fx.acctOk (fun _ => Except.error ())
      (fun _ => Except.error ()) 0 Fx.dbFailedCallrail
  · exact C1_usage_gate.2.2.2.2.2 Fx.db0 Fx.payloadAnswered
      (fun _ => Except.error ()) (fun _ => none) 0

/-! ### C5: the retry bound -/

theorem call_retry_eta (c : Call) (h : c.retry_count = 0) :
    { c with retry_count := 0 } = c := by
  cases c
  simp only at h
  rw [h]

theorem db_calls_eta (db : DB) (l : List Call) (h : db.calls = l) :
    { db with calls := l } = db := by
  cases db
  simp only at h
  rw [h]

/-- One invocation of the Twilio retry driver on a store holding a
single failed call with `retry_count = k < 3` and an always-failing
submit: the count advances to `k + 1` and one attempt is made. -/
theorem retry_step_fail (account : Account)
    (submit : String → Except Unit String) (db : DB) (c : Call) (k : Nat)
    (hk : k < 3)
    (hsid : truthy account.twilio_account_sid = true)
    (htok : truthy account.twilio_auth_token_encrypted = true)
    (hsvc : truthy account.twilio_service_sid = true)
    (hsub : ∀ url, submit url = Except.error ())
    (hca : c.account_id = account.id)
    (hst : c.status = "failed")
    (hsrc : c.source = "twilio")
    (hurl : truthy c.recording_url = true) :
    poll_service.retry_failed_submissions account submit
        { db with calls := [{ c with retry_count := k }] }
      = ({ db with calls := [{ c with retry_count := k + 1 }] }, 1) := by
  have hsel : retry_selected account { c with retry_count := k } = true := by
    simp [retry_selected, hca, hst, hsrc, hk]
  simp [poll_service.retry_failed_submissions, hsid, htok, hsvc, hsel, retry_one,
    hurl, hsub]

/-- One invocation of the Twilio retry driver on a single failed call
with `retry_count = 3`: the call is not selected, nothing changes, no
attempt is made. -/
theorem retry_step_capped (account : Account)
    (submit : String → Except Unit String) (db : DB) (c : Call)
    (hsid : truthy account.twilio_account_sid = true)
    (htok : truthy account.twilio_auth_token_encrypted = true)
    (hsvc : truthy account.twilio_service_sid = true) :
    poll_service.retry_failed_submissions account submit
        { db with calls := [{ c with retry_count := 3 }] }
      = ({ db with calls := [{ c with retry_count := 3 }] }, 0) := by
  have hsel : retry_selected account { c with retry_count := 3 } = false := by
    simp [retry_selected]
  simp [poll_service.retry_failed_submissions, hsid, htok, hsvc, hsel]

theorem iterate_retry_aux (account : Account)
    (submit : String → Except Unit String) (db : DB) (c : Call) :
    ∀ (n k : Nat), k ≤ 3 →
    truthy account.twilio_account_sid = true →
    truthy account.twilio_auth_token_encrypted = true →
    truthy account.twilio_service_sid = true →
    (∀ url, submit url = Except.error ()) →
    c.account_id = account.id →
    c.status = "failed" →
    c.source = "twilio" →
    truthy c.recording_url = true →
    iterate_retry account submit n { db with calls := [{ c with retry_count := k }] }
      = ({ db with calls := [{ c with retry_count := min (k + n) 3 }] },
         min (k + n) 3 - k) := by
  intro n
  induction n with
  | zero =>
    intro k hk hsid htok hsvc hsub hca hst hsrc hurl
    have hmin : min (k + 0) 3 = k := by omega
    rw [hmin]
    simp [iterate_retry]
  | succ m ih =>
    intro k hk hsid htok hsvc hsub hca hst hsrc hurl
    by_cases hk3 : k < 3
    · have hstep := retry_step_fail account submit db c k hk3 hsid htok hsvc hsub
        hca hst hsrc hurl
      have hrec := ih (k + 1) (by omega) hsid htok hsvc hsub hca hst hsrc hurl
      simp only [iterate_retry, hstep, hrec]
      rw [show min (k + 1 + m) 3 = min (k + (m + 1)) 3 from by omega]
      rw [show 1 + (min (k + (m + 1)) 3 - (k + 1)) = min (k + (m + 1)) 3 - k
        from by omega]
    · have hk3e : k = 3 := by omega
      subst hk3e
      have hstep := retry_step_capped account submit db c hsid htok hsvc
      have hrec := ih 3 (by omega) hsid htok hsvc hsub hca hst hsrc hurl
      simp only [iterate_retry, hstep, hrec]
      rw [show min (3 + m) 3 = min (3 + (m + 1)) 3 from by omega]
      simp

/-- One invocation of the CallRail retry driver on a single failed call
with `retry_count = k < 3` and an always-raising transcriber. -/
theorem callrail_retry_step_fail (account : Account)
    (transcribe : String → Except Unit String)
    (classify : String → Except Unit ClassificationResult) (now : Int)
    (db : DB) (c : Call) (k : Nat) (hk : k < 3)
    (htrs : ∀ url, transcribe url = Except.error ())
    (hca : c.account_id = account.id)
    (hst : c.status = "failed")
    (hsrc : c.source = "callrail")
    (hurl : truthy c.recording_url = true) :
    poll_callrail.retry_failed_callrail account transcribe classify now
        { db with calls := [{ c with retry_count := k }] }
      = ({ db with calls := [{ c with retry_count := k + 1 }] }, 1) := by
  have hsel : callrail_retry_selected account { c with retry_count := k } = true := by
    simp [callrail_retry_selected, hca, hst, hsrc, hk]
  simp [poll_callrail.retry_failed_callrail, hsel, callrail_retry_one, hurl, htrs]

/-- One invocation of the CallRail retry driver on a single failed call
with `retry_count = 3`: not selected, untouched, no attempt. -/
theorem callrail_retry_step_capped (account : Account)
    (transcribe : String → Except Unit String)
    (classify : String → Except Unit ClassificationResult) (now : Int)
    (db : DB) (c : Call) :
    poll_callrail.retry_failed_callrail account transcribe classify now
        { db with calls := [{ c with retry_count := 3 }] }
      = ({ db with calls := [{ c with retry_count := 3 }] }, 0) := by
  have hsel : callrail_retry_selected account { c with retry_count := 3 } = false := by
    simp [callrail_retry_selected]
  simp [poll_callrail.retry_failed_callrail, hsel]

theorem iterate_retry_callrail_aux (account : Account)
    (transcribe : String → Except Unit String)
    (classify : String → Except Unit ClassificationResult) (now : Int)
    (db : DB) (c : Call) :
    ∀ (n k : Nat), k ≤ 3 →
    (∀ url, transcribe url = Except.error ()) →
    c.account_id = account.id →
    c.status = "failed" →
    c.source = "callrail" →
    truthy c.recording_url = true →
    iterate_retry_callrail account transcribe classify now n
        { db with calls := [{ c with retry_count := k }] }
      = ({ db with calls := [{ c with retry_count := min (k + n) 3 }] },
         min (k + n) 3 - k) := by
  intro n
  induction n with
  | zero =>
    intro k hk htrs hca hst hsrc hurl
    have hmin : min (k + 0) 3 = k := by omega
    rw [hmin]
    simp [iterate_retry_callrail]
  | succ m ih =>
    intro k hk htrs hca hst hsrc hurl
    by_cases hk3 : k < 3
    · have hstep := callrail_retry_step_fail account transcribe classify now db c k
        hk3 htrs hca hst hsrc hurl
      have hrec := ih (k + 1) (by omega) htrs hca hst hsrc hurl
      simp only [iterate_retry_callrail, hstep, hrec]
      rw [show min (k + 1 + m) 3 = min (k + (m + 1)) 3 from by omega]
      rw [show 1 + (min (k + (m + 1)) 3 - (k + 1)) = min (k + (m + 1)) 3 - k
        from by omega]
    · have hk3e : k = 3 := by omega
      subst hk3e
      have hstep := callrail_retry_step_capped account transcribe classify now db c
      have hrec := ih 3 (by omega) htrs hca hst hsrc hurl
      simp only [iterate_retry_callrail, hstep, hrec]
      rw [show min (3 + m) 3 = min (3 + (m + 1)) 3 from by omega]
      simp

/-- C5: a failed call is re-attempted only while `retry_count < 3`, the
count is incremented on every attempt, and after 3 failed attempts it
stays `failed` with `retry_count = 3` forever: across `n` driver
invocations exactly `min n 3` attempts are made — a 4th is never made.
Part 1: the Twilio retry driver (`retry_failed_submissions`).  Part 2:
the CallRail retry driver (`retry_failed_callrail`). -/
theorem C5_retry_bound :
    (∀ (account : Account) (submit : String → Except Unit String) (db : DB)
      (c : Call) (n : Nat),
      truthy account.twilio_account_sid = true →
      truthy account.twilio_auth_token_encrypted = true →
      truthy account.twilio_service_sid = true →
      (∀ url, submit url = Except.error ()) →
      db.calls = [c] →
      c.account_id = account.id →
      c.status = "failed" →
      c.source = "twilio" →
      c.retry_count = 0 →
      truthy c.recording_url = true →
      iterate_retry account submit n db
        = ({ db with calls := [{ c with retry_count := min n 3 }] }, min n 3)) ∧
    (∀ (account : Account) (transcribe : String → Except Unit String)
      (classify : String → Except Unit ClassificationResult) (now : Int)
      (db : DB) (c : Call) (n : Nat),
      (∀ url, transcribe url = Except.error ()) →
      db.calls = [c] →
      c.account_id = account.id →
      c.status = "failed" →
      c.source = "callrail" →
      c.retry_count = 0 →
      truthy c.recording_url = true →
      iterate_retry_callrail account transcribe classify now n db
        = ({ db with calls := [{ c with retry_count := min n 3 }] }, min n 3)) := by
  constructor
  · intro account submit db c n hsid htok hsvc hsub hcalls hca hst hsrc hrc hurl
    have h0 : { db with calls := [{ c with retry_count := 0 }] } = db := by
      rw [call_retry_eta c hrc]
      exact db_calls_eta db [c] hcalls
    have haux := iterate_retry_aux account submit db c n 0 (by omega) hsid htok
      hsvc hsub hca hst hsrc hurl
    rw [h0] at haux
    simpa using haux
  · intro account transcribe classify now db c n htrs hcalls hca hst hsrc hrc hurl
    have h0 : { db with calls := [{ c with retry_count := 0 }] } = db := by
      rw [call_retry_eta c hrc]
      exact db_calls_eta db [c] hcalls
    have haux := iterate_retry_callrail_aux account transcribe classify now db c n
      0 (by omega) htrs hca hst hsrc hurl
    rw [h0] at haux
    simpa using haux

/-- Witness for C5: five scheduler firings over one failed call of each
provider make exactly `min 5 3 = 3` attempts and leave `retry_count`
capped at 3. -/
theorem C5_witness :
    (iterate_retry Fx.acctOk (fun _ => Except.error ()) 5 Fx.dbFailed
      = ({ Fx.dbFailed with calls := [{ Fx.failedCall with retry_count := min 5 3 }] },
         min 5 3)) ∧
    (iterate_retry_callrail Fx.acctOk (fun _ => Except.error ())
        (fun _ => Except.error ()) 0 5 Fx.dbFailedCallrail
      = ({ Fx.dbFailedCallrail with calls := [{ Fx.failedCallrail with retry_count := min 5 3 }] },
         min 5 3)) := by
  constructor
  · exact C5_retry_bound.1 Fx.acctOk (fun _ => Except.error ()) Fx.dbFailed
      Fx.failedCall 5 (by decide) (by decide) (by decide) (fun _ => rfl) rfl rfl
      rfl rfl rfl (by decide)
  · exact C5_retry_bound.2 Fx.acctOk (fun _ => Except.error ())
      (fun _ => Except.error ()) 0 Fx.dbFailedCallrail Fx.failedCallrail 5
      (fun _ => rfl) rfl rfl rfl rfl rfl (by decide)

/-! ### C8: short-answered-call recovery dedup -/

/-- C8: two short answered completed-call signals of the same account
from the same caller number, with timestamps within 3 minutes of each
other, produce exactly one `Call` row in the recovery sweep — the
second signal is absorbed by the caller-number + time-window dedup even
though its call SID differs — and the stored row is `completed`,
`NOT_BOOKED`, with the canned summary. -/
theorem C8_short_call_dedup (account : Account) (env : PollEnv) (db : DB)
    (r1 r2 : TwilioCallRecord) (d1 d2 : Int) (tline : TrackingLine)
    (hsid : truthy account.twilio_account_sid = true)
    (htok : truthy account.twilio_auth_token_encrypted = true)
    (hdur1 : r1.duration ≤ 15) (hdur2 : r2.duration ≤ 15)
    (hfrom : r2.from_number = r1.from_number)
    (hd1 : parse_date env.strptime env.now r1.date_created = some d1)
    (hd2 : parse_date env.strptime env.now r2.date_created = some d2)
    (hw1 : d2 - 180 ≤ d1) (hw2 : d1 ≤ d2 + 180)
    (hded1 : db.calls.find? (fun c => c.account_id == account.id
      && c.twilio_call_sid == r1.sid) = none)
    (hnear : (db.calls.find? (near_dup_match account r1.from_number d1)).isSome
      = false)
    (htl : db.tracking_lines.find? (fun tl => tl.account_id == account.id
      && tl.twilio_phone_number == some r1.to_number && tl.active) = some tline) :
    ∃ c, poll_service.poll_short_answered_calls account env [r1, r2] db
        = ({ db with calls := db.calls ++ [c], next_id := db.next_id + 1 }, 1)
      ∧ c.status = "completed" ∧ c.classification = some "NOT_BOOKED"
      ∧ c.summary = some "Very short call — no recording available."
      ∧ c.caller_number = r1.from_number := by
  have hstep1 : poll_service.short_new_call account env db r1
      = some (poll_service.short_call_row account db r1 tline (some d1)) := by
    simp only [poll_service.short_new_call, hd1, hded1, hnear, htl,
      Option.isSome_none, Bool.false_eq_true, if_false]
    rw [if_neg (by omega)]
  have hc1 : poll_service.short_call_row account db r1 tline (some d1)
      = poll_service.short_call_row account db r1 tline (some d1) := rfl
  generalize hgen : poll_service.short_call_row account db r1 tline (some d1) = c1 at hstep1
  have hstep2 : poll_service.short_new_call account env
      { db with calls := db.calls ++ [c1], next_id := db.next_id + 1 } r2
        = none := by
    by_cases hded2 : (((db.calls ++ [c1]).find? (fun c =>
        c.account_id == account.id && c.twilio_call_sid == r2.sid)).isSome) = true
    · simp only [poll_service.short_new_call]
      rw [if_neg (by omega : ¬ r2.duration > 15)]
      rw [if_pos hded2]
    · have hmem : c1 ∈ db.calls ++ [c1] := by simp
      have hpred : near_dup_match account r2.from_number d2 c1 = true := by
        rw [← hgen]
        simp [near_dup_match, poll_service.short_call_row, hfrom, hw1, hw2]
      have hnear2 : (((db.calls ++ [c1]).find?
          (near_dup_match account r2.from_number d2)).isSome) = true :=
        find?_isSome_of_mem hmem hpred
      simp only [Bool.not_eq_true] at hded2
      simp only [poll_service.short_new_call]
      rw [if_neg (by omega : ¬ r2.duration > 15)]
      simp only [hded2, Bool.false_eq_true, if_false, hd2, hnear2, if_true]
  have hmain : poll_service.poll_short_answered_calls account env [r1, r2] db
      = ({ db with calls := db.calls ++ [c1], next_id := db.next_id + 1 }, 1) := by
    unfold poll_service.poll_short_answered_calls
    rw [if_neg (by simp [hsid, htok])]
    have e1 : poll_service.short_step account env (db, 0) r1
        = ({ db with calls := db.calls ++ [c1], next_id := db.next_id + 1 }, 1) := by
      unfold poll_service.short_step
      rw [hstep1]
    have e2 : poll_service.short_step account env
        ({ db with calls := db.calls ++ [c1], next_id := db.next_id + 1 }, 1) r2
        = ({ db with calls := db.calls ++ [c1], next_id := db.next_id + 1 }, 1) := by
      unfold poll_service.short_step
      rw [hstep2]
    rw [List.foldl_cons, e1, List.foldl_cons, e2, List.foldl_nil]
  refine ⟨c1, hmain, ?_, ?_, ?_, ?_⟩ <;> rw [← hgen] <;> rfl

/-- Witness for C8: two 5-second completed-call signals of the same
caller 60 seconds apart (distinct SIDs) yield exactly one stored row. -/
theorem C8_witness :
    ∃ c, poll_service.poll_short_answered_calls Fx.acctOk
        { Fx.envMatched with strptime := fun s => if s == "t1" then some 1000 else some 1060 }
        [{ sid := some "CA10", to_number := "+61400000001",
           from_number := "+61411111111", duration := 5, date_created := some "t1" },
         { sid := some "CA11", to_number := "+61400000001",
           from_number := "+61411111111", duration := 5, date_created := some "t2" }]
        Fx.db0
      = ({ Fx.db0 with calls := Fx.db0.calls ++ [c], next_id := Fx.db0.next_id + 1 }, 1)
      ∧ c.status = "completed" ∧ c.classification = some "NOT_BOOKED"
      ∧ c.summary = some "Very short call — no recording available."
      ∧ c.caller_number = "+61411111111" := by
  exact C8_short_call_dedup Fx.acctOk
    { Fx.envMatched with strptime := fun s => if s == "t1" then some 1000 else some 1060 }
    Fx.db0
    { sid := some "CA10", to_number := "+61400000001",
      from_number := "+61411111111", duration := 5, date_created := some "t1" }
    { sid := some "CA11", to_number := "+61400000001",
      from_number := "+61411111111", duration := 5, date_created := some "t2" }
    1000 1060 Fx.tl (by decide) (by decide) (by decide) (by decide) rfl rfl rfl
    (by decide) (by decide) (by decide) (by decide) (by decide)
